import Mathlib

/-!
Verification development for the Quantum Olympiad hybrid question engine.

The embedding covers the procedural generator (makeOptions, makeOptionsStr,
the template library, generateQuestion, generateQuestionBatch) and the hybrid
session builder (mapDbRowToQuestion, fetchSmartSession).

Modelling conventions:
 - The random source (Math.random) is an arbitrary stream of naturals
   consumed one value per call; randInt(lo, hi) maps the drawn value v to
   lo + v % (hi - lo + 1), covering exactly the range the source can produce.
 - The clock (Date.now) is a second arbitrary stream, consumed per read.
 - Every numeric value this engine manufactures is an exact multiple of
   1/1000 (areas with one half, 3.14 times squares, values pre-rounded to
   three decimals), so JS numbers are embedded as exact fixed-point
   thousandths over Int (JNum below).  Binary floating point noise is not
   modelled; no verified property depends on it.
 - The unbounded while loop in makeOptions is embedded with explicit fuel
   and an Option result: a none result models divergence of the source loop.
-/

namespace QOlymp

/-- JS number as exact fixed-point thousandths: the value is mi / 1000. -/
structure JNum where
  mi : Int
deriving DecidableEq

/-- Embed an integer as a JNum. -/
def JNum.ofInt (n : Int) : JNum := ⟨n * 1000⟩

def JNum.add (a b : JNum) : JNum := ⟨a.mi + b.mi⟩

/-- Multiplication; exact whenever the true product is a thousandth-multiple,
which holds for every product the templates form. -/
def JNum.mul (a b : JNum) : JNum := ⟨Int.fdiv (a.mi * b.mi) 1000⟩

/-- Add an integer offset to a JNum (distractor construction). -/
def JNum.addInt (a : JNum) (n : Int) : JNum := ⟨a.mi + n * 1000⟩

def JNum.abs (a : JNum) : JNum := ⟨|a.mi|⟩

/-- Math.floor of the value. -/
def JNum.floorI (a : JNum) : Int := Int.fdiv a.mi 1000

/-- Number.isInteger. -/
def JNum.isInt (a : JNum) : Bool := a.mi % 1000 == 0

instance : Add JNum := ⟨JNum.add⟩

instance : Mul JNum := ⟨JNum.mul⟩

/-- Constant 0.5. -/
def j05 : JNum := ⟨500⟩

/-- Constant 0.3. -/
def j03 : JNum := ⟨300⟩

/-- Constant 3.14. -/
def j314 : JNum := ⟨3140⟩

/-- Digit character for 0-9. -/
def digitChar (n : Nat) : Char :=
  if n = 0 then '0' else if n = 1 then '1' else if n = 2 then '2' else if n = 3 then '3'
  else if n = 4 then '4' else if n = 5 then '5' else if n = 6 then '6' else if n = 7 then '7'
  else if n = 8 then '8' else '9'

def natDigitsAux : Nat → Nat → List Char
  | 0, _ => []
  | _ + 1, 0 => []
  | f + 1, n + 1 => natDigitsAux f ((n + 1) / 10) ++ [digitChar ((n + 1) % 10)]

/-- Decimal rendering of a natural (structural, so it reduces in proofs). -/
def natRepr (n : Nat) : String := if n = 0 then "0" else ⟨natDigitsAux n n⟩

/-- JS rendering of an integer. -/
def intRepr (i : Int) : String :=
  if i < 0 then "-" ++ natRepr i.natAbs else natRepr i.natAbs

def pad2 (m : Nat) : String := (if m < 10 then "0" else "") ++ intRepr m

def pad3 (m : Nat) : String :=
  (if m < 10 then "00" else if m < 100 then "0" else "") ++ intRepr m

/-- JS Number.prototype.toFixed(2): round to centi-units, print 2 decimals. -/
def JNum.toFixed2 (a : JNum) : String :=
  let c : Int := if 0 ≤ a.mi then (a.mi + 5) / 10 else -(((-a.mi) + 5) / 10)
  let sgn := if c < 0 then "-" else ""
  let n := c.natAbs
  sgn ++ intRepr (n / 100) ++ "." ++ pad2 (n % 100)

/-- Value of parseFloat(x.toFixed(2)): the number rounded to centi-units. -/
def JNum.toFixed2Val (a : JNum) : JNum :=
  ⟨(if 0 ≤ a.mi then (a.mi + 5) / 10 else -(((-a.mi) + 5) / 10)) * 10⟩

/-- JS default number-to-string for the values arising here (at most three
decimal places; integers print with no decimal point). -/
def JNum.jstr (a : JNum) : String :=
  let sgn := if a.mi < 0 then "-" else ""
  let n := a.mi.natAbs
  if n % 1000 = 0 then sgn ++ intRepr (n / 1000)
  else if n % 100 = 0 then sgn ++ intRepr (n / 1000) ++ "." ++ intRepr (n / 100 % 10)
  else if n % 10 = 0 then sgn ++ intRepr (n / 1000) ++ "." ++ pad2 (n / 10 % 100)
  else sgn ++ intRepr (n / 1000) ++ "." ++ pad3 (n % 1000)

/-- Render one entry of the numeric option set, as in makeOptions:
Number.isInteger(n) ? n.toString() : n.toFixed(2). -/
def renderNum (a : JNum) : String :=
  if a.isInt then intRepr (a.mi / 1000) else a.toFixed2

/-- Consumption state of the two streams: next index into the random stream,
next index into the clock stream. -/
abbrev RSt := Nat × Nat

/-- Draw the next raw value from the random stream. -/
def nextNat (ρ : Nat → Nat) (st : RSt) : Nat × RSt := (ρ st.1, (st.1 + 1, st.2))

/-- Read Date.now() from the clock stream. -/
def nextTime (τ : Nat → Nat) (st : RSt) : Nat × RSt := (τ st.2, (st.1, st.2 + 1))

/-- randInt(min, max) = Math.floor(Math.random() * (max - min + 1)) + min. -/
def randIntF (ρ : Nat → Nat) (st : RSt) (lo hi : Int) : Int × RSt :=
  let (v, st1) := nextNat ρ st
  (lo + (v : Int) % (hi - lo + 1), st1)

theorem randIntF_mem_range (ρ : Nat → Nat) (st : RSt) (lo hi : Int) (h : lo ≤ hi) :
    lo ≤ (randIntF ρ st lo hi).1 ∧ (randIntF ρ st lo hi).1 ≤ hi := by
  have hpos : (0 : Int) < hi - lo + 1 := by omega
  have h1 : 0 ≤ ((ρ st.1 : Int)) % (hi - lo + 1) :=
    Int.emod_nonneg _ (by omega)
  have h2 : ((ρ st.1 : Int)) % (hi - lo + 1) < hi - lo + 1 :=
    Int.emod_lt_of_pos _ hpos
  constructor
  · simp only [randIntF, nextNat]
    omega
  · simp only [randIntF, nextNat]
    omega

/-- Index-range form used for uniform picks randInt(0, n-1). -/
theorem randIntF_pick_lt (ρ : Nat → Nat) (st : RSt) (n : Nat) (h : 0 < n) :
    0 ≤ (randIntF ρ st 0 ((n : Int) - 1)).1 ∧
      ((randIntF ρ st 0 ((n : Int) - 1)).1).toNat < n := by
  have := randIntF_mem_range ρ st 0 ((n : Int) - 1) (by omega)
  omega

/-- Array destructuring swap of two positions, as in the Fisher-Yates loop. -/
def swapL {α : Type} (l : List α) (i j : Nat) : List α :=
  match l.get? i, l.get? j with
  | some a, some b => (l.set i b).set j a
  | some _, none => l
  | none, some _ => l
  | none, none => l

theorem headSwap_perm {α : Type} :
    ∀ (xs : List α) (m : Nat) (x b : α), xs.get? m = some b →
      List.Perm (b :: xs.set m x) (x :: xs) := by
  intro xs
  induction xs with
  | nil => intro m x b h; simp at h
  | cons y ys ih =>
    intro m x b h
    cases m with
    | zero =>
      simp at h
      cases h
      simpa using List.Perm.swap x y ys
    | succ k =>
      simp only [List.get?] at h
      have h1 := ih k x b h
      simp only [List.set]
      exact (List.Perm.swap y b _).trans ((List.Perm.cons y h1).trans (List.Perm.swap x y ys))

theorem set_set_swap_perm {α : Type} :
    ∀ (l : List α) (i j : Nat) (a b : α), l.get? i = some a → l.get? j = some b →
      List.Perm ((l.set i b).set j a) l := by
  intro l
  induction l with
  | nil => intro i j a b h; simp at h
  | cons x xs ih =>
    intro i j a b hi hj
    cases i with
    | zero =>
      simp at hi
      cases hi
      cases j with
      | zero =>
        simp at hj
        cases hj
        simp
      | succ m =>
        simp only [List.get?] at hj
        simp only [List.set]
        exact headSwap_perm xs m x b hj
    | succ n =>
      simp only [List.get?] at hi
      cases j with
      | zero =>
        simp at hj
        cases hj
        simp only [List.set]
        exact headSwap_perm xs n x a hi
      | succ m =>
        simp only [List.get?] at hj
        simp only [List.set]
        exact List.Perm.cons x (ih n m a b hi hj)

theorem swapL_perm {α : Type} (l : List α) (i j : Nat) : List.Perm (swapL l i j) l := by
  unfold swapL
  cases hi : l.get? i with
  | none => cases hj : l.get? j <;> simp
  | some a =>
    cases hj : l.get? j with
    | none => simp
    | some b => simpa using set_set_swap_perm l i j a b hi hj

/-- Fisher-Yates: process indices i = k, k-1, ..., 1. -/
def shuffleAux {α : Type} (ρ : Nat → Nat) : Nat → RSt → List α → List α × RSt
  | 0, st, l => (l, st)
  | k + 1, st, l =>
    let (j, st1) := randIntF ρ st 0 ((k : Int) + 1)
    shuffleAux ρ k st1 (swapL l (k + 1) j.toNat)

/-- Uniform shuffle of an array, as in both shuffle utilities of the source. -/
def shuffleF {α : Type} (ρ : Nat → Nat) (st : RSt) (l : List α) : List α × RSt :=
  shuffleAux ρ (l.length - 1) st l

theorem shuffleAux_perm {α : Type} (ρ : Nat → Nat) :
    ∀ (k : Nat) (st : RSt) (l : List α), List.Perm (shuffleAux ρ k st l).1 l := by
  intro k
  induction k with
  | zero => intro st l; simp [shuffleAux]
  | succ m ih =>
    intro st l
    simp only [shuffleAux]
    exact (ih _ _).trans (swapL_perm l (m + 1) _)

theorem shuffleF_perm {α : Type} (ρ : Nat → Nat) (st : RSt) (l : List α) :
    List.Perm (shuffleF ρ st l).1 l :=
  shuffleAux_perm ρ (l.length - 1) st l

theorem shuffleF_length {α : Type} (ρ : Nat → Nat) (st : RSt) (l : List α) :
    (shuffleF ρ st l).1.length = l.length :=
  (shuffleF_perm ρ st l).length_eq

theorem shuffleF_mem {α : Type} (ρ : Nat → Nat) (st : RSt) (l : List α) (x : α)
    (h : x ∈ l) : x ∈ (shuffleF ρ st l).1 :=
  (shuffleF_perm ρ st l).mem_iff.mpr h

/-- JS Array.prototype.findIndex: first matching index, otherwise -1. -/
def jsFindIndex {α : Type} (p : α → Bool) : List α → Int
  | [] => -1
  | x :: xs =>
    if p x then 0
    else
      let r := jsFindIndex p xs
      if r = -1 then -1 else r + 1

/-- JS Array.prototype.indexOf (strict equality search, -1 when absent). -/
def jsIndexOf {α : Type} [DecidableEq α] (l : List α) (x : α) : Int :=
  jsFindIndex (fun y => y == x) l

theorem jsFindIndex_spec {α : Type} (p : α → Bool) (d : α) :
    ∀ (l : List α), (∃ x ∈ l, p x = true) →
      0 ≤ jsFindIndex p l ∧ (jsFindIndex p l).toNat < l.length ∧
        p (l.getD (jsFindIndex p l).toNat d) = true := by
  intro l
  induction l with
  | nil => intro h; simp at h
  | cons x xs ih =>
    intro h
    by_cases hx : p x = true
    · simp [jsFindIndex, hx, List.getD]
    · have hxs : ∃ y ∈ xs, p y = true := by
        rcases h with ⟨y, hy, hpy⟩
        rcases List.mem_cons.mp hy with h1 | h1
        · subst h1; exact absurd hpy hx
        · exact ⟨y, h1, hpy⟩
      rcases ih hxs with ⟨h0, hlt, hp⟩
      have hne : jsFindIndex p xs ≠ -1 := by omega
      have hfi : jsFindIndex p (x :: xs) = jsFindIndex p xs + 1 := by
        simp [jsFindIndex, hx, hne]
      have htn : (jsFindIndex p xs + 1).toNat = (jsFindIndex p xs).toNat + 1 := by omega
      refine ⟨?_, ?_, ?_⟩
      · omega
      · rw [hfi, htn]
        simp only [List.length_cons]
        omega
      · rw [hfi, htn]
        simpa using hp

theorem jsFindIndex_neg {α : Type} (p : α → Bool) :
    ∀ (l : List α), (∀ x ∈ l, p x = false) → jsFindIndex p l = -1 := by
  intro l
  induction l with
  | nil => intro; simp [jsFindIndex]
  | cons x xs ih =>
    intro h
    have hx : p x = false := h x (by simp)
    have hxs := ih (fun y hy => h y (by simp [hy]))
    simp [jsFindIndex, hx, hxs]

theorem jsIndexOf_spec {α : Type} [DecidableEq α] (l : List α) (x : α) (d : α)
    (h : x ∈ l) :
    0 ≤ jsIndexOf l x ∧ (jsIndexOf l x).toNat < l.length ∧
      l.getD (jsIndexOf l x).toNat d = x := by
  have := jsFindIndex_spec (fun y => y == x) d l ⟨x, h, by simp⟩
  refine ⟨this.1, this.2.1, ?_⟩
  have := this.2.2
  simpa [beq_iff_eq] using this

/-- Set.prototype.add: insertion-ordered, membership-deduplicating. -/
def addIfNew {α : Type} [DecidableEq α] (l : List α) (x : α) : List α :=
  if x ∈ l then l else l ++ [x]

theorem mem_addIfNew {α : Type} [DecidableEq α] (l : List α) (x y : α) :
    y ∈ addIfNew l x ↔ y ∈ l ∨ y = x := by
  unfold addIfNew
  by_cases h : x ∈ l
  · simp only [if_pos h]
    constructor
    · exact fun hy => Or.inl hy
    · rintro (hy | rfl)
      · exact hy
      · exact h
  · simp [if_neg h]

/-- Distractor-collection loop of makeOptions, fuelled.  The source loop is
while (distractors.size < 3): sample an offset in [-s, s]; when the offset is
zero use set-size + 1 instead; skip candidates equal to the correct value;
Set.add drops candidates already collected. -/
def distractorLoop (ρ : Nat → Nat) (correct : JNum) (s : Int) :
    Nat → RSt → List JNum → Option (List JNum × RSt)
  | fuel, st, ds =>
    if 3 ≤ ds.length then some (ds, st)
    else
      match fuel with
      | 0 => none
      | f + 1 =>
        let (o, st1) := randIntF ρ st (-s) s
        let d := if o = 0 then correct.addInt ((ds.length : Int) + 1) else correct.addInt o
        let ds1 := if d ≠ correct then addIfNew ds d else ds
        distractorLoop ρ correct s f st1 ds1

/-- makeOptions: distractor spread (template hint, defaulting to
max(1, floor(|correct| * 0.3)) on a falsy hint), three unique distractors,
uniform shuffle, rendered options and the post-shuffle index of the correct
answer. -/
def spreadVal (correct : JNum) (spread : Int) : Int :=
  if spread = 0 then max 1 ((correct.abs.mul j03).floorI) else spread

def makeOptionsF (fuel : Nat) (ρ : Nat → Nat) (st : RSt) (correct : JNum)
    (spread : Int) : Option ((List String × Int) × RSt) :=
  match distractorLoop ρ correct (spreadVal correct spread) fuel st [] with
  | none => none
  | some (ds, st1) =>
    let allNums := correct :: ds
    let (shuffled, st2) := shuffleF ρ st1 allNums
    some ((shuffled.map renderNum, jsIndexOf shuffled correct), st2)

/-- makeOptionsStr: correct answer plus the first three declared wrong
answers, uniformly shuffled; index of the correct answer post-shuffle. -/
def makeOptionsStrF (ρ : Nat → Nat) (st : RSt) (correct : String)
    (others : List String) : (List String × Int) × RSt :=
  let (all, st1) := shuffleF ρ st (correct :: others.take 3)
  ((all, jsIndexOf all correct), st1)

/-- String.prototype.replace with the whitespace-stripping regex. -/
def stripSpaces (s : String) : String :=
  ⟨s.data.filter (fun c => !c.isWhitespace)⟩

/-- String.prototype.replace keeping only ASCII alphanumerics. -/
def keepAlnum (s : String) : String :=
  ⟨s.data.filter Char.isAlphanum⟩

/-- String.prototype.slice(0, n). -/
def takeStr (n : Nat) (s : String) : String :=
  ⟨s.data.take n⟩

def binAux : Nat → Nat → List Char
  | 0, _ => []
  | _ + 1, 0 => []
  | f + 1, n + 1 =>
    binAux f ((n + 1) / 2) ++ [if (n + 1) % 2 = 1 then '1' else '0']

/-- Number.prototype.toString(2) for positive integers. -/
def binString (n : Nat) : String := ⟨binAux n n⟩

def commaRev : List Char → Nat → List Char
  | [], _ => []
  | c :: cs, k =>
    if k = 2 then c :: (if cs = [] then [] else ',' :: commaRev cs 0)
    else c :: commaRev cs (k + 1)

/-- Number.prototype.toLocaleString for nonnegative integers (groups of three
digits, comma separated). -/
def locStr (n : Nat) : String :=
  ⟨(commaRev (natRepr n).data.reverse 0).reverse⟩

/-- Fuelled Euclid, mirroring the inline gcd of the FPB template
(b === 0 ? a : gcd(b, a % b)); fuel a + b + 1 always suffices. -/
def gcdAux : Nat → Nat → Nat → Nat
  | 0, a, _ => a
  | _ + 1, a, 0 => a
  | f + 1, a, b + 1 => gcdAux f (b + 1) (a % (b + 1))

def jsGcd (a b : Nat) : Nat := gcdAux (a + b + 1) a b

/-- Template answers are JS numbers or strings. -/
inductive NumOrStr
  | num (v : JNum)
  | str (s : String)
deriving DecidableEq

inductive DiagramType
  | triangle
  | rectangle
  | blockForce
  | circle
  | trapezoid
  | none
deriving DecidableEq

/-- Result record produced by one template execution. -/
structure TemplateResult where
  question : String
  answer : NumOrStr
  explanation : String
  diagramType : DiagramType
  diagramData : List (String × Int)
  signatureBase : String
  isStringAnswer : Bool := false
  otherOptions : Option (List String) := Option.none
  spread : Option Int := Option.none
deriving DecidableEq

/-- Templates consume the random stream and return a result record. -/
def TemplateFn : Type := (Nat → Nat) → RSt → TemplateResult × RSt

/-- Hand-authored topic entry of the string-answer templates. -/
structure Topic where
  q : String
  a : String
  others : List String
deriving DecidableEq

def dfltTopic : Topic := ⟨"", "", ["", "", ""]⟩

/-- The topics[randInt(0, topics.length - 1)] pick. -/
def pickTopic (topics : List Topic) (ρ : Nat → Nat) (st : RSt) : Topic × RSt :=
  let (i, st1) := randIntF ρ st 0 ((topics.length : Int) - 1)
  ((topics.get? i.toNat).getD dfltTopic, st1)

/-- Shared shape of the topic-bank string-answer templates: pick a topic
uniformly, return its question, answer, declared wrong answers and a
signature derived from the answer text. -/
def topicTemplate (topics : List Topic) (mkSig : String → String)
    (mkExpl : String → String) : TemplateFn :=
  fun ρ st =>
    let (t, st1) := pickTopic topics ρ st
    ({ question := t.q, answer := NumOrStr.str t.a, explanation := mkExpl t.a,
       diagramType := DiagramType.none, diagramData := [],
       signatureBase := mkSig t.a, isStringAnswer := true,
       otherOptions := some t.others }, st1)

/-- Render ${n} with parentheses around negatives, as in the discriminant
template text. -/
def parenNeg (n : Int) : String :=
  if 0 ≤ n then intRepr n else "(" ++ intRepr n ++ ")"

/-- Division by an integer; exact in every use site (n / 2, pct / 100). -/
def JNum.divInt (a : JNum) (n : Int) : JNum := ⟨a.mi / n⟩

/-- First MATEMATIKA SMP template (triangle area); also the hard fallback of
generateQuestion for unregistered level-subject pairs. -/
def triangleTemplate : TemplateFn :=
  fun ρ st =>
    let (b, st1) := randIntF ρ st 5 20
    let (h, st2) := randIntF ρ st1 3 15
    let area := j05 * JNum.ofInt b * JNum.ofInt h
    ({ question := "Sebuah segitiga memiliki alas " ++ intRepr b ++ " cm dan tinggi " ++
         intRepr h ++ " cm. Berapakah luas segitiga tersebut?",
       answer := NumOrStr.num area,
       explanation := "Luas = ½ × alas × tinggi = ½ × " ++ intRepr b ++ " × " ++
         intRepr h ++ " = " ++ area.jstr ++ " cm²",
       diagramType := DiagramType.triangle, diagramData := [("base", b), ("height", h)],
       signatureBase := "mat-tri-b" ++ intRepr b ++ "-h" ++ intRepr h }, st2)

/-- MATEMATIKA SMP templates. -/
def mathSMPTemplates : List TemplateFn := [
  triangleTemplate,
  fun ρ st =>
    let (l, st1) := randIntF ρ st 4 18
    let (w, st2) := randIntF ρ st1 3 14
    let area := l * w
    ({ question := "Sebuah persegi panjang memiliki panjang " ++ intRepr l ++
         " cm dan lebar " ++ intRepr w ++ " cm. Berapakah luasnya?",
       answer := NumOrStr.num (JNum.ofInt area),
       explanation := "Luas = panjang × lebar = " ++ intRepr l ++ " × " ++ intRepr w ++
         " = " ++ intRepr area ++ " cm²",
       diagramType := DiagramType.rectangle, diagramData := [("length", l), ("width", w)],
       signatureBase := "mat-rect-l" ++ intRepr l ++ "-w" ++ intRepr w }, st2),
  fun ρ st =>
    let (r, st1) := randIntF ρ st 3 14
    let area := j314 * JNum.ofInt r * JNum.ofInt r
    ({ question := "Sebuah lingkaran memiliki jari-jari " ++ intRepr r ++
         " cm. Berapakah luasnya? (π = 3.14)",
       answer := NumOrStr.num area.toFixed2Val,
       explanation := "Luas = π × r² = 3.14 × " ++ intRepr r ++ "² = " ++
         area.toFixed2 ++ " cm²",
       diagramType := DiagramType.circle, diagramData := [("radius", r)],
       signatureBase := "mat-circ-r" ++ intRepr r }, st1),
  fun ρ st =>
    let (a, st1) := randIntF ρ st 5 15
    let (b, st2) := randIntF ρ st1 8 22
    let (h, st3) := randIntF ρ st2 4 12
    let area := j05 * JNum.ofInt (a + b) * JNum.ofInt h
    ({ question := "Sebuah trapesium memiliki sisi sejajar " ++ intRepr a ++ " cm dan " ++
         intRepr b ++ " cm, serta tinggi " ++ intRepr h ++ " cm. Berapakah luasnya?",
       answer := NumOrStr.num area,
       explanation := "Luas = ½ × (" ++ intRepr a ++ " + " ++ intRepr b ++ ") × " ++
         intRepr h ++ " = " ++ area.jstr ++ " cm²",
       diagramType := DiagramType.trapezoid,
       diagramData := [("topSide", a), ("bottomSide", b), ("height", h)],
       signatureBase := "mat-trap-a" ++ intRepr a ++ "-b" ++ intRepr b ++ "-h" ++
         intRepr h }, st3),
  fun ρ st =>
    let (l, st1) := randIntF ρ st 3 12
    let (w, st2) := randIntF ρ st1 3 12
    let (h2, st3) := randIntF ρ st2 3 12
    let vol := l * w * h2
    ({ question := "Sebuah balok memiliki panjang " ++ intRepr l ++ " cm, lebar " ++
         intRepr w ++ " cm, dan tinggi " ++ intRepr h2 ++ " cm. Berapakah volumenya?",
       answer := NumOrStr.num (JNum.ofInt vol),
       explanation := "Volume = p × l × t = " ++ intRepr l ++ " × " ++ intRepr w ++
         " × " ++ intRepr h2 ++ " = " ++ intRepr vol ++ " cm³",
       diagramType := DiagramType.rectangle, diagramData := [("length", l), ("width", w)],
       signatureBase := "mat-balok-" ++ intRepr l ++ "-" ++ intRepr w ++ "-" ++
         intRepr h2 }, st3),
  fun ρ st =>
    let (a, st1) := randIntF ρ st 2 20
    let (b, st2) := randIntF ρ st1 2 20
    ({ question := "Berapakah hasil dari " ++ intRepr a ++ " × " ++ intRepr b ++
         " + " ++ intRepr a ++ "?",
       answer := NumOrStr.num (JNum.ofInt (a * b + a)),
       explanation := intRepr a ++ " × " ++ intRepr b ++ " + " ++ intRepr a ++ " = " ++
         intRepr (a * b) ++ " + " ++ intRepr a ++ " = " ++ intRepr (a * b + a),
       diagramType := DiagramType.none, diagramData := [],
       signatureBase := "mat-arith-" ++ intRepr a ++ "-" ++ intRepr b }, st2),
  fun ρ st =>
    let (x, st1) := randIntF ρ st 2 10
    let (c, st2) := randIntF ρ st1 1 20
    let ans := x + c
    ({ question := "Jika x + " ++ intRepr c ++ " = " ++ intRepr ans ++
         ", berapakah nilai x?",
       answer := NumOrStr.num (JNum.ofInt x),
       explanation := "x = " ++ intRepr ans ++ " - " ++ intRepr c ++ " = " ++ intRepr x,
       diagramType := DiagramType.none, diagramData := [],
       signatureBase := "mat-alg-x" ++ intRepr x ++ "-c" ++ intRepr c }, st2),
  fun ρ st =>
    let (s, st1) := randIntF ρ st 3 15
    let p := 4 * s
    ({ question := "Sebuah persegi memiliki sisi " ++ intRepr s ++
         " cm. Berapakah kelilingnya?",
       answer := NumOrStr.num (JNum.ofInt p),
       explanation := "Keliling = 4 × sisi = 4 × " ++ intRepr s ++ " = " ++
         intRepr p ++ " cm",
       diagramType := DiagramType.rectangle, diagramData := [("length", s), ("width", s)],
       signatureBase := "mat-sq-s" ++ intRepr s }, st1),
  fun ρ st =>
    let (n1, st1) := randIntF ρ st 10 50
    let (n2, st2) := randIntF ρ st1 10 50
    let ans : Int := jsGcd n1.toNat n2.toNat
    ({ question := "Berapakah FPB dari " ++ intRepr n1 ++ " dan " ++ intRepr n2 ++ "?",
       answer := NumOrStr.num (JNum.ofInt ans),
       explanation := "FPB(" ++ intRepr n1 ++ ", " ++ intRepr n2 ++ ") = " ++ intRepr ans,
       diagramType := DiagramType.none, diagramData := [],
       signatureBase := "mat-fpb-" ++ intRepr n1 ++ "-" ++ intRepr n2 }, st2),
  fun ρ st =>
    let (p0, st1) := randIntF ρ st 1 9
    let pct := p0 * 10
    let (t0, st2) := randIntF ρ st1 2 10
    let total := t0 * 100
    let ans := ((JNum.ofInt pct).divInt 100) * JNum.ofInt total
    ({ question := "Berapakah " ++ intRepr pct ++ "% dari " ++ intRepr total ++ "?",
       answer := NumOrStr.num ans,
       explanation := intRepr pct ++ "% × " ++ intRepr total ++ " = " ++ intRepr pct ++
         "/100 × " ++ intRepr total ++ " = " ++ ans.jstr,
       diagramType := DiagramType.none, diagramData := [],
       signatureBase := "mat-pct-" ++ intRepr pct ++ "-" ++ intRepr total }, st2)]

/-- IPA SMP templates. -/
def ipaSMPTemplates : List TemplateFn := [
  fun ρ st =>
    let (m, st1) := randIntF ρ st 2 20
    let (a2, st2) := randIntF ρ st1 1 10
    let f := m * a2
    ({ question := "Sebuah benda bermassa " ++ intRepr m ++ " kg diberi percepatan " ++
         intRepr a2 ++ " m/s². Berapakah gaya yang bekerja?",
       answer := NumOrStr.num (JNum.ofInt f),
       explanation := "F = m × a = " ++ intRepr m ++ " × " ++ intRepr a2 ++ " = " ++
         intRepr f ++ " N",
       diagramType := DiagramType.blockForce, diagramData := [("mass", m), ("force", f)],
       signatureBase := "ipa-newton-m" ++ intRepr m ++ "-a" ++ intRepr a2 }, st2),
  fun ρ st =>
    let (v, st1) := randIntF ρ st 10 100
    let (t, st2) := randIntF ρ st1 1 10
    let s := v * t
    ({ question := "Sebuah mobil bergerak dengan kecepatan " ++ intRepr v ++
         " m/s selama " ++ intRepr t ++ " detik. Berapakah jarak tempuhnya?",
       answer := NumOrStr.num (JNum.ofInt s),
       explanation := "s = v × t = " ++ intRepr v ++ " × " ++ intRepr t ++ " = " ++
         intRepr s ++ " m",
       diagramType := DiagramType.none, diagramData := [],
       signatureBase := "ipa-jarak-v" ++ intRepr v ++ "-t" ++ intRepr t }, st2),
  fun ρ st =>
    let (m, st1) := randIntF ρ st 1 15
    let (h, st2) := randIntF ρ st1 2 20
    let ep := m * 10 * h
    ({ question := "Benda bermassa " ++ intRepr m ++ " kg berada di ketinggian " ++
         intRepr h ++ " m. Berapakah energi potensialnya? (g = 10 m/s²)",
       answer := NumOrStr.num (JNum.ofInt ep),
       explanation := "Ep = m × g × h = " ++ intRepr m ++ " × 10 × " ++ intRepr h ++
         " = " ++ intRepr ep ++ " J",
       diagramType := DiagramType.blockForce,
       diagramData := [("mass", m), ("force", ep / 10)],
       signatureBase := "ipa-ep-m" ++ intRepr m ++ "-h" ++ intRepr h }, st2),
  fun ρ st =>
    let (v2, st1) := randIntF ρ st 200 400
    let (f2, st2) := randIntF ρ st1 100 1000
    let wl : JNum := ⟨Int.fdiv (2000 * v2 + f2) (2 * f2)⟩
    ({ question := "Sebuah gelombang memiliki kecepatan " ++ intRepr v2 ++
         " m/s dan frekuensi " ++ intRepr f2 ++ " Hz. Berapa panjang gelombangnya?",
       answer := NumOrStr.num wl.toFixed2Val,
       explanation := "λ = v/f = " ++ intRepr v2 ++ "/" ++ intRepr f2 ++ " = " ++
         wl.toFixed2 ++ " m",
       diagramType := DiagramType.none, diagramData := [],
       signatureBase := "ipa-wave-v" ++ intRepr v2 ++ "-f" ++ intRepr f2,
       spread := some 1 }, st2),
  fun ρ st =>
    let (r, st1) := randIntF ρ st 2 20
    let (i, st2) := randIntF ρ st1 1 10
    let v3 := i * r
    ({ question := "Sebuah resistor " ++ intRepr r ++ " Ω dialiri arus " ++ intRepr i ++
         " A. Berapakah tegangan listriknya?",
       answer := NumOrStr.num (JNum.ofInt v3),
       explanation := "V = I × R = " ++ intRepr i ++ " × " ++ intRepr r ++ " = " ++
         intRepr v3 ++ " Volt",
       diagramType := DiagramType.none, diagramData := [],
       signatureBase := "ipa-ohm-r" ++ intRepr r ++ "-i" ++ intRepr i }, st2),
  fun ρ st =>
    let (m, st1) := randIntF ρ st 1 10
    let (dT, st2) := randIntF ρ st1 5 50
    let q := m * 4200 * dT
    ({ question := "Air bermassa " ++ intRepr m ++ " kg dipanaskan dari 20°C hingga " ++
         intRepr (20 + dT) ++ "°C. Berapa kalor yang diperlukan? (c = 4200 J/kg°C)",
       answer := NumOrStr.num (JNum.ofInt q),
       explanation := "Q = m × c × ΔT = " ++ intRepr m ++ " × 4200 × " ++ intRepr dT ++
         " = " ++ intRepr q ++ " J",
       diagramType := DiagramType.none, diagramData := [],
       signatureBase := "ipa-kalor-m" ++ intRepr m ++ "-dT" ++ intRepr dT }, st2)]

/-- IPS SMP topic bank. -/
def ipsTopics : List Topic := [
  ⟨"Apa ibu kota Indonesia?", "Jakarta", ["Surabaya", "Bandung", "Medan"]⟩,
  ⟨"Pulau terbesar di Indonesia adalah?", "Kalimantan", ["Sumatera", "Jawa", "Sulawesi"]⟩,
  ⟨"Sungai terpanjang di Indonesia adalah?", "Sungai Kapuas",
    ["Sungai Mahakam", "Sungai Musi", "Sungai Barito"]⟩,
  ⟨"Gunung tertinggi di Indonesia adalah?", "Puncak Jaya",
    ["Gunung Semeru", "Gunung Rinjani", "Gunung Kerinci"]⟩,
  ⟨"Danau terbesar di Indonesia adalah?", "Danau Toba",
    ["Danau Sentani", "Danau Maninjau", "Danau Singkarak"]⟩,
  ⟨"Selat yang memisahkan Jawa dan Sumatera adalah?", "Selat Sunda",
    ["Selat Malaka", "Selat Bali", "Selat Madura"]⟩,
  ⟨"Proklamator kemerdekaan Indonesia adalah Soekarno dan?", "Mohammad Hatta",
    ["Ahmad Yani", "Sudirman", "Tan Malaka"]⟩,
  ⟨"Indonesia merdeka pada tanggal?", "17 Agustus 1945",
    ["1 Juni 1945", "10 November 1945", "28 Oktober 1928"]⟩,
  ⟨"Mata uang resmi Indonesia adalah?", "Rupiah", ["Ringgit", "Baht", "Dollar"]⟩,
  ⟨"Organisasi pergerakan pertama di Indonesia adalah?", "Budi Utomo",
    ["Sarekat Islam", "Muhammadiyah", "PNI"]⟩]

/-- IPS SMP templates (one topic-bank template). -/
def ipsSMPTemplates : List TemplateFn :=
  [topicTemplate ipsTopics (fun a => "ips-" ++ stripSpaces a)
    (fun a => "Jawaban yang benar: " ++ a)]

/-- MATEMATIKA SMA templates. -/
def mathSMATemplates : List TemplateFn := [
  fun ρ st =>
    let (a2, st1) := randIntF ρ st 1 5
    let (b2, st2) := randIntF ρ st1 (-10) 10
    let (c2, st3) := randIntF ρ st2 (-20) 5
    let disc := b2 * b2 - 4 * a2 * c2
    ({ question := "Tentukan diskriminan dari persamaan " ++ intRepr a2 ++ "x² + " ++
         parenNeg b2 ++ "x + " ++ parenNeg c2 ++ " = 0",
       answer := NumOrStr.num (JNum.ofInt disc),
       explanation := "D = b² - 4ac = (" ++ intRepr b2 ++ ")² - 4(" ++ intRepr a2 ++
         ")(" ++ intRepr c2 ++ ") = " ++ intRepr (b2 * b2) ++ " - " ++
         intRepr (4 * a2 * c2) ++ " = " ++ intRepr disc,
       diagramType := DiagramType.none, diagramData := [],
       signatureBase := "mat-disc-" ++ intRepr a2 ++ "-" ++ intRepr b2 ++ "-" ++
         intRepr c2 }, st3),
  fun ρ st =>
    let (n, st1) := randIntF ρ st 3 8
    let (a3, st2) := randIntF ρ st1 1 5
    let (d, st3) := randIntF ρ st2 1 5
    let sn := ((JNum.ofInt n).divInt 2) * JNum.ofInt (2 * a3 + (n - 1) * d)
    ({ question := "Hitunglah jumlah " ++ intRepr n ++
         " suku pertama deret aritmatika dengan a = " ++ intRepr a3 ++ " dan b = " ++
         intRepr d ++ "!",
       answer := NumOrStr.num sn,
       explanation := "Sn = n/2 × (2a + (n-1)b) = " ++ intRepr n ++ "/2 × (2×" ++
         intRepr a3 ++ " + " ++ intRepr (n - 1) ++ "×" ++ intRepr d ++ ") = " ++
         sn.jstr,
       diagramType := DiagramType.none, diagramData := [],
       signatureBase := "mat-arit-n" ++ intRepr n ++ "-a" ++ intRepr a3 ++ "-d" ++
         intRepr d }, st3),
  fun ρ st =>
    let (b2, st1) := randIntF ρ st 5 20
    let (h2, st2) := randIntF ρ st1 3 15
    let area := j05 * JNum.ofInt b2 * JNum.ofInt h2
    ({ question := "Sebuah segitiga memiliki alas " ++ intRepr b2 ++ " cm dan tinggi " ++
         intRepr h2 ++ " cm. Berapakah luas segitiga tersebut?",
       answer := NumOrStr.num area,
       explanation := "Luas = ½ × " ++ intRepr b2 ++ " × " ++ intRepr h2 ++ " = " ++
         area.jstr ++ " cm²",
       diagramType := DiagramType.triangle, diagramData := [("base", b2), ("height", h2)],
       signatureBase := "sma-tri-b" ++ intRepr b2 ++ "-h" ++ intRepr h2 }, st2),
  fun ρ st =>
    let (a4, st1) := randIntF ρ st 2 6
    let (r, st2) := randIntF ρ st1 2 4
    let (n2, st3) := randIntF ρ st2 3 6
    let an := a4 * r ^ (n2 - 1).toNat
    ({ question := "Suku ke-" ++ intRepr n2 ++ " dari barisan geometri dengan a = " ++
         intRepr a4 ++ " dan r = " ++ intRepr r ++ " adalah?",
       answer := NumOrStr.num (JNum.ofInt an),
       explanation := "Un = a × r^(n-1) = " ++ intRepr a4 ++ " × " ++ intRepr r ++ "^" ++
         intRepr (n2 - 1) ++ " = " ++ intRepr an,
       diagramType := DiagramType.none, diagramData := [],
       signatureBase := "mat-geo-a" ++ intRepr a4 ++ "-r" ++ intRepr r ++ "-n" ++
         intRepr n2 }, st3),
  fun ρ st =>
    let (x2, st1) := randIntF ρ st 1 8
    let ans := x2 * x2 * x2
    ({ question := "Berapakah nilai dari " ++ intRepr x2 ++ "³?",
       answer := NumOrStr.num (JNum.ofInt ans),
       explanation := intRepr x2 ++ "³ = " ++ intRepr x2 ++ " × " ++ intRepr x2 ++
         " × " ++ intRepr x2 ++ " = " ++ intRepr ans,
       diagramType := DiagramType.none, diagramData := [],
       signatureBase := "mat-cube-" ++ intRepr x2 }, st1),
  fun ρ st =>
    let (base, st1) := randIntF ρ st 2 5
    let (e, st2) := randIntF ρ st1 2 6
    let pw := base ^ e.toNat
    ({ question := "Berapakah log basis " ++ intRepr base ++ " dari " ++ intRepr pw ++ "?",
       answer := NumOrStr.num (JNum.ofInt e),
       explanation := "log_" ++ intRepr base ++ "(" ++ intRepr pw ++ ") = " ++
         intRepr e ++ ", karena " ++ intRepr base ++ "^" ++ intRepr e ++ " = " ++
         intRepr pw,
       diagramType := DiagramType.none, diagramData := [],
       signatureBase := "mat-log-b" ++ intRepr base ++ "-e" ++ intRepr e }, st2)]

/-- FISIKA SMA templates. -/
def fisikaSMATemplates : List TemplateFn := [
  fun ρ st =>
    let (m, st1) := randIntF ρ st 2 30
    let (a5, st2) := randIntF ρ st1 1 15
    let f := m * a5
    ({ question := "Sebuah benda bermassa " ++ intRepr m ++ " kg diberi percepatan " ++
         intRepr a5 ++ " m/s². Berapakah gaya yang bekerja pada benda?",
       answer := NumOrStr.num (JNum.ofInt f),
       explanation := "Hukum Newton II: F = m × a = " ++ intRepr m ++ " × " ++
         intRepr a5 ++ " = " ++ intRepr f ++ " N",
       diagramType := DiagramType.blockForce, diagramData := [("mass", m), ("force", f)],
       signatureBase := "fis-newton-m" ++ intRepr m ++ "-a" ++ intRepr a5 }, st2),
  fun ρ st =>
    let (v0, st1) := randIntF ρ st 0 20
    let (a6, st2) := randIntF ρ st1 1 10
    let (t, st3) := randIntF ρ st2 1 10
    let v := v0 + a6 * t
    ({ question := "Benda bergerak dengan v₀ = " ++ intRepr v0 ++ " m/s, a = " ++
         intRepr a6 ++ " m/s², selama t = " ++ intRepr t ++
         " s. Berapa kecepatan akhirnya?",
       answer := NumOrStr.num (JNum.ofInt v),
       explanation := "v = v₀ + at = " ++ intRepr v0 ++ " + " ++ intRepr a6 ++ "×" ++
         intRepr t ++ " = " ++ intRepr v ++ " m/s",
       diagramType := DiagramType.none, diagramData := [],
       signatureBase := "fis-glbb-v" ++ intRepr v0 ++ "-a" ++ intRepr a6 ++ "-t" ++
         intRepr t }, st3),
  fun ρ st =>
    let (m, st1) := randIntF ρ st 1 20
    let (v2, st2) := randIntF ρ st1 2 15
    let ek := j05 * JNum.ofInt m * JNum.ofInt v2 * JNum.ofInt v2
    ({ question := "Benda bermassa " ++ intRepr m ++ " kg bergerak dengan kecepatan " ++
         intRepr v2 ++ " m/s. Berapa energi kinetiknya?",
       answer := NumOrStr.num ek,
       explanation := "Ek = ½mv² = ½ × " ++ intRepr m ++ " × " ++ intRepr v2 ++ "² = " ++
         ek.jstr ++ " J",
       diagramType := DiagramType.blockForce, diagramData := [("mass", m), ("force", v2)],
       signatureBase := "fis-ek-m" ++ intRepr m ++ "-v" ++ intRepr v2 }, st2),
  fun ρ st =>
    let (m1, st1) := randIntF ρ st 1 10
    let (m2, st2) := randIntF ρ st1 1 10
    let (r, st3) := randIntF ρ st2 1 5
    let f2 := Int.fdiv (2 * (667 * m1 * m2) + r * r) (2 * (r * r))
    ({ question := "Dua benda bermassa " ++ intRepr m1 ++ " kg dan " ++ intRepr m2 ++
         " kg berjarak " ++ intRepr r ++
         " m. Berapa gaya gravitasi? (G = 6.67 × 10⁻¹¹, jawab dalam ×10⁻¹¹ N)",
       answer := NumOrStr.num (JNum.ofInt f2),
       explanation := "F = G×m₁×m₂/r² = 6.67×10⁻¹¹ × " ++ intRepr m1 ++ " × " ++
         intRepr m2 ++ " / " ++ intRepr r ++ "² = " ++ intRepr f2 ++ " × 10⁻¹¹ N",
       diagramType := DiagramType.none, diagramData := [],
       signatureBase := "fis-grav-" ++ intRepr m1 ++ "-" ++ intRepr m2 ++ "-" ++
         intRepr r }, st3),
  fun ρ st =>
    let (p, st1) := randIntF ρ st 100 1000
    let (a7, st2) := randIntF ρ st1 1 20
    let f3 := p * a7
    ({ question := "Tekanan " ++ intRepr p ++ " Pa bekerja pada luas " ++ intRepr a7 ++
         " m². Berapa gayanya?",
       answer := NumOrStr.num (JNum.ofInt f3),
       explanation := "F = P × A = " ++ intRepr p ++ " × " ++ intRepr a7 ++ " = " ++
         intRepr f3 ++ " N",
       diagramType := DiagramType.none, diagramData := [],
       signatureBase := "fis-tekanan-" ++ intRepr p ++ "-" ++ intRepr a7 }, st2),
  fun ρ st =>
    let (w, st1) := randIntF ρ st 100 2000
    let (s, st2) := randIntF ρ st1 1 20
    let p2 := w * s
    ({ question := "Gaya " ++ intRepr w ++ " N memindahkan benda sejauh " ++ intRepr s ++
         " m. Berapa usahanya?",
       answer := NumOrStr.num (JNum.ofInt p2),
       explanation := "W = F × s = " ++ intRepr w ++ " × " ++ intRepr s ++ " = " ++
         intRepr p2 ++ " J",
       diagramType := DiagramType.blockForce,
       diagramData := [("mass", Int.fdiv (w + 5) 10), ("force", w)],
       signatureBase := "fis-usaha-" ++ intRepr w ++ "-" ++ intRepr s }, st2)]

/-- KIMIA SMA topic bank. -/
def kimiaTopics : List Topic := [
  ⟨"Berapa nomor atom Karbon?", "6", ["8", "12", "14"]⟩,
  ⟨"Berapa nomor atom Oksigen?", "8", ["6", "16", "10"]⟩,
  ⟨"Apa rumus kimia air?", "H₂O", ["CO₂", "NaCl", "H₂SO₄"]⟩,
  ⟨"Apa rumus kimia garam dapur?", "NaCl", ["KCl", "CaCl₂", "MgCl₂"]⟩,
  ⟨"Gas mulia yang paling ringan adalah?", "Helium", ["Neon", "Argon", "Kripton"]⟩,
  ⟨"pH larutan netral adalah?", "7", ["0", "14", "1"]⟩,
  ⟨"Unsur dengan simbol Fe adalah?", "Besi", ["Emas", "Perak", "Tembaga"]⟩,
  ⟨"Berapa jumlah elektron valensi Natrium (Na)?", "1", ["2", "3", "7"]⟩,
  ⟨"Ikatan antara logam dan non-logam disebut ikatan?", "Ionik",
    ["Kovalen", "Logam", "Hidrogen"]⟩,
  ⟨"Reaksi yang melepas panas disebut reaksi?", "Eksoterm",
    ["Endoterm", "Redoks", "Substitusi"]⟩]

/-- KIMIA SMA templates. -/
def kimiaSMATemplates : List TemplateFn := [
  topicTemplate kimiaTopics (fun a => "kim-" ++ keepAlnum a) (fun a => "Jawaban: " ++ a),
  fun ρ st =>
    let (mol, st1) := randIntF ρ st 1 10
    let mass := mol * 18
    ({ question := "Berapa gram massa " ++ intRepr mol ++ " mol air (H₂O)? (Mr H₂O = 18)",
       answer := NumOrStr.num (JNum.ofInt mass),
       explanation := "m = n × Mr = " ++ intRepr mol ++ " × 18 = " ++ intRepr mass ++
         " gram",
       diagramType := DiagramType.none, diagramData := [],
       signatureBase := "kim-mol-" ++ intRepr mol }, st1)]

/-- BIOLOGI SMA topic bank. -/
def biologiTopics : List Topic := [
  ⟨"Organel sel yang berfungsi sebagai pembangkit energi adalah?", "Mitokondria",
    ["Ribosom", "Lisosom", "Nukleus"]⟩,
  ⟨"Proses pembelahan sel secara mitosis menghasilkan?", "2 sel anak identik",
    ["4 sel anak", "1 sel besar", "8 sel anak"]⟩,
  ⟨"Fotosintesis terjadi di organel?", "Kloroplas", ["Mitokondria", "Ribosom", "Vakuola"]⟩,
  ⟨"DNA terletak di bagian sel yang disebut?", "Nukleus",
    ["Sitoplasma", "Membran sel", "Retikulum Endoplasma"]⟩,
  ⟨"Hewan yang berkembang biak dengan bertelur disebut?", "Ovipar",
    ["Vivipar", "Ovovivipar", "Vegetatif"]⟩,
  ⟨"Sistem peredaran darah manusia bersifat?", "Tertutup",
    ["Terbuka", "Tunggal", "Sederhana"]⟩,
  ⟨"Hormon insulin diproduksi oleh?", "Pankreas", ["Hati", "Ginjal", "Tiroid"]⟩,
  ⟨"Jumlah kromosom manusia normal adalah?", "46", ["23", "44", "48"]⟩,
  ⟨"Vitamin yang larut dalam lemak adalah?", "Vitamin A, D, E, K",
    ["Vitamin B, C", "Vitamin B saja", "Vitamin C saja"]⟩,
  ⟨"Enzim pencernaan yang terdapat di mulut adalah?", "Amilase",
    ["Pepsin", "Tripsin", "Lipase"]⟩]

/-- BIOLOGI SMA templates. -/
def biologiSMATemplates : List TemplateFn := [
  topicTemplate biologiTopics (fun a => "bio-" ++ keepAlnum a) (fun a => "Jawaban: " ++ a)]

/-- INFORMATIKA SMA topic bank. -/
def informatikaTopics : List Topic := [
  ⟨"Bahasa pemrograman yang dikembangkan oleh Google untuk web adalah?", "Dart",
    ["Swift", "Kotlin", "Ruby"]⟩,
  ⟨"Struktur data LIFO (Last In First Out) disebut?", "Stack", ["Queue", "Array", "Tree"]⟩,
  ⟨"Apa singkatan dari HTML?", "HyperText Markup Language",
    ["High Tech Machine Learning", "Hyper Transfer Mode Link", "Home Tool Markup Language"]⟩,
  ⟨"Berapa bit dalam 1 byte?", "8", ["4", "16", "32"]⟩,
  ⟨"Algoritma pengurutan yang membandingkan elemen berdekatan disebut?", "Bubble Sort",
    ["Quick Sort", "Merge Sort", "Heap Sort"]⟩,
  ⟨"Apa itu IP Address?", "Alamat unik perangkat di jaringan",
    ["Nama domain website", "Password jaringan", "Kecepatan internet"]⟩]

/-- INFORMATIKA SMA templates. -/
def informatikaSMATemplates : List TemplateFn := [
  fun ρ st =>
    let (n, st1) := randIntF ρ st 1 255
    let (x1, st2) := randIntF ρ st1 1 255
    let (x2, st3) := randIntF ρ st2 1 255
    let (x3, st4) := randIntF ρ st3 1 255
    ({ question := "Konversikan bilangan desimal " ++ intRepr n ++ " ke biner!",
       answer := NumOrStr.str (binString n.toNat),
       explanation := intRepr n ++ " dalam biner = " ++ binString n.toNat,
       diagramType := DiagramType.none, diagramData := [],
       signatureBase := "inf-bin-" ++ intRepr n, isStringAnswer := true,
       otherOptions := some [binString x1.toNat, binString x2.toNat, binString x3.toNat] },
     st4),
  topicTemplate informatikaTopics (fun a => "inf-" ++ takeStr 10 (keepAlnum a))
    (fun a => "Jawaban: " ++ a)]

/-- ASTRONOMI SMA topic bank. -/
def astronomiTopics : List Topic := [
  ⟨"Planet terbesar di tata surya adalah?", "Jupiter", ["Saturnus", "Uranus", "Neptunus"]⟩,
  ⟨"Bintang terdekat dari Bumi selain Matahari adalah?", "Proxima Centauri",
    ["Sirius", "Alpha Centauri A", "Betelgeuse"]⟩,
  ⟨"Galaksi tempat tinggal kita disebut?", "Bima Sakti",
    ["Andromeda", "Triangulum", "Sombrero"]⟩,
  ⟨"Planet yang memiliki cincin paling terlihat adalah?", "Saturnus",
    ["Jupiter", "Uranus", "Neptunus"]⟩,
  ⟨"Fenomena gerhana matahari terjadi ketika?", "Bulan berada di antara Bumi dan Matahari",
    ["Bumi berada di antara Bulan dan Matahari", "Matahari berada di antara Bumi dan Bulan",
     "Planet lain menghalangi"]⟩,
  ⟨"Satuan jarak yang digunakan untuk mengukur jarak bintang adalah?", "Tahun cahaya",
    ["Kilometer", "Mil", "Meter"]⟩]

/-- ASTRONOMI SMA templates. -/
def astronomiSMATemplates : List TemplateFn := [
  topicTemplate astronomiTopics (fun a => "astro-" ++ takeStr 10 (keepAlnum a))
    (fun a => "Jawaban: " ++ a)]

/-- EKONOMI SMA topic bank. -/
def ekonomiTopics : List Topic := [
  ⟨"Hukum permintaan menyatakan bahwa jika harga naik maka?", "Permintaan turun",
    ["Permintaan naik", "Permintaan tetap", "Penawaran turun"]⟩,
  ⟨"Bank sentral Indonesia adalah?", "Bank Indonesia", ["Bank BRI", "Bank Mandiri", "OJK"]⟩,
  ⟨"GDP adalah singkatan dari?", "Gross Domestic Product",
    ["General Development Plan", "Growth Domestic Percentage", "Grand Domestic Price"]⟩,
  ⟨"Inflasi adalah?", "Kenaikan harga secara umum",
    ["Penurunan harga", "Kenaikan produksi", "Penurunan pendapatan"]⟩,
  ⟨"Pajak yang dikenakan pada barang dan jasa disebut?", "PPN", ["PPh", "PBB", "Cukai"]⟩]

/-- EKONOMI SMA templates. -/
def ekonomiSMATemplates : List TemplateFn := [
  fun ρ st =>
    let (p0, st1) := randIntF ρ st 5 50
    let price := p0 * 1000
    let (qty, st2) := randIntF ρ st1 10 100
    let rev := price * qty
    ({ question := "Sebuah toko menjual barang seharga Rp" ++ locStr price.toNat ++
         " per unit, terjual " ++ intRepr qty ++ " unit. Berapa total pendapatan?",
       answer := NumOrStr.num (JNum.ofInt rev),
       explanation := "Total = harga × jumlah = Rp" ++ locStr price.toNat ++ " × " ++
         intRepr qty ++ " = Rp" ++ locStr rev.toNat,
       diagramType := DiagramType.none, diagramData := [],
       signatureBase := "eko-rev-" ++ intRepr price ++ "-" ++ intRepr qty }, st2),
  topicTemplate ekonomiTopics (fun a => "eko-" ++ takeStr 10 (keepAlnum a))
    (fun a => "Jawaban: " ++ a)]

/-- KEBUMIAN SMA topic bank. -/
def kebumianTopics : List Topic := [
  ⟨"Lapisan Bumi yang paling tebal adalah?", "Mantel", ["Kerak", "Inti luar", "Inti dalam"]⟩,
  ⟨"Skala yang digunakan untuk mengukur kekuatan gempa adalah?", "Skala Richter",
    ["Skala Beaufort", "Skala Mohs", "Skala Celsius"]⟩,
  ⟨"Batuan yang terbentuk dari magma yang membeku disebut batuan?", "Beku",
    ["Sedimen", "Metamorf", "Mineral"]⟩,
  ⟨"Lapisan atmosfer tempat cuaca terjadi adalah?", "Troposfer",
    ["Stratosfer", "Mesosfer", "Termosfer"]⟩,
  ⟨"Apa yang menyebabkan terjadinya tsunami?", "Gempa bawah laut",
    ["Angin kencang", "Hujan lebat", "Erupsi gunung"]⟩,
  ⟨"Mineral dengan kekerasan tertinggi pada skala Mohs adalah?", "Berlian",
    ["Kuarsa", "Topaz", "Korundum"]⟩]

/-- KEBUMIAN SMA templates. -/
def kebumianSMATemplates : List TemplateFn := [
  topicTemplate kebumianTopics (fun a => "kbm-" ++ takeStr 10 (keepAlnum a))
    (fun a => "Jawaban: " ++ a)]

/-- GEOGRAFI SMA topic bank. -/
def geografiTopics : List Topic := [
  ⟨"Garis khayal yang membagi Bumi menjadi belahan utara dan selatan adalah?",
    "Garis Khatulistiwa", ["Garis Bujur", "Garis Wallace", "Garis Weber"]⟩,
  ⟨"Benua terluas di dunia adalah?", "Asia", ["Afrika", "Amerika", "Eropa"]⟩,
  ⟨"Samudra terluas di dunia adalah?", "Samudra Pasifik",
    ["Samudra Atlantik", "Samudra Hindia", "Samudra Arktik"]⟩,
  ⟨"Negara dengan penduduk terbanyak di dunia adalah?", "India",
    ["China", "Amerika Serikat", "Indonesia"]⟩,
  ⟨"Iklim Indonesia termasuk iklim?", "Tropis", ["Subtropis", "Sedang", "Kutub"]⟩,
  ⟨"Angin muson barat membawa?", "Musim hujan",
    ["Musim kemarau", "Musim semi", "Musim gugur"]⟩]

/-- GEOGRAFI SMA templates. -/
def geografiSMATemplates : List TemplateFn := [
  topicTemplate geografiTopics (fun a => "geo-" ++ takeStr 10 (keepAlnum a))
    (fun a => "Jawaban: " ++ a)]

/-- Education levels. -/
inductive Level
  | SMP
  | SMA
deriving DecidableEq

/-- Subjects. -/
inductive Subject
  | Matematika
  | IPA
  | IPS
  | Fisika
  | Kimia
  | Biologi
  | Informatika
  | Astronomi
  | Ekonomi
  | Kebumian
  | Geografi
deriving DecidableEq

def levelStr : Level → String
  | Level.SMP => "SMP"
  | Level.SMA => "SMA"

def subjectStr : Subject → String
  | Subject.Matematika => "Matematika"
  | Subject.IPA => "IPA"
  | Subject.IPS => "IPS"
  | Subject.Fisika => "Fisika"
  | Subject.Kimia => "Kimia"
  | Subject.Biologi => "Biologi"
  | Subject.Informatika => "Informatika"
  | Subject.Astronomi => "Astronomi"
  | Subject.Ekonomi => "Ekonomi"
  | Subject.Kebumian => "Kebumian"
  | Subject.Geografi => "Geografi"

/-- The template registry, keyed by the string template key level-subject. -/
def registryLookup (key : String) : Option (List TemplateFn) :=
  if key = "SMP-Matematika" then some mathSMPTemplates
  else if key = "SMP-IPA" then some ipaSMPTemplates
  else if key = "SMP-IPS" then some ipsSMPTemplates
  else if key = "SMA-Matematika" then some mathSMATemplates
  else if key = "SMA-Fisika" then some fisikaSMATemplates
  else if key = "SMA-Kimia" then some kimiaSMATemplates
  else if key = "SMA-Biologi" then some biologiSMATemplates
  else if key = "SMA-Informatika" then some informatikaSMATemplates
  else if key = "SMA-Astronomi" then some astronomiSMATemplates
  else if key = "SMA-Ekonomi" then some ekonomiSMATemplates
  else if key = "SMA-Kebumian" then some kebumianSMATemplates
  else if key = "SMA-Geografi" then some geografiSMATemplates
  else Option.none

/-- Generated/curated question record.  The level and subject fields hold the
runtime string values (curated rows are cast, not converted, in the source). -/
structure GeneratedQuestion where
  id : String
  signature : String
  subject : String
  level : String
  question : String
  options : List String
  correctIndex : Int
  explanation : String
  diagramType : DiagramType
  diagramData : List (String × Int)
  imageUrl : Option String := Option.none
deriving DecidableEq

/-- JS cast of the template answer to a string for makeOptionsStr.  For the
num case (unreachable for every registered template: string-answer templates
always carry string answers) the JS value would flow through unrendered; its
string form is used here. -/
def ansStr : NumOrStr → String
  | NumOrStr.num v => v.jstr
  | NumOrStr.str s => s

/-- JS cast of the template answer to a number for makeOptions.  The str case
is unreachable for every registered template. -/
def ansNum : NumOrStr → JNum
  | NumOrStr.num v => v
  | NumOrStr.str _ => ⟨0⟩

/-- buildQuestion: build the option set (string-answer templates use their
declared distractors, numeric ones use makeOptions), then assemble the
question with a fresh clock-and-random id and the signatureBase as signature.
The base-36 fractional rendering of the id suffix is abstracted as the raw
draw. -/
def buildQuestionF (fuel : Nat) (ρ τ : Nat → Nat) (r : TemplateResult)
    (lv : Level) (sb : Subject) (st : RSt) : Option (GeneratedQuestion × RSt) :=
  match
    (if r.isStringAnswer && r.otherOptions.isSome then
      some (makeOptionsStrF ρ st (ansStr r.answer) (r.otherOptions.getD []))
    else
      makeOptionsF fuel ρ st (ansNum r.answer) (r.spread.getD 0))
  with
  | Option.none => Option.none
  | some (opts, st1) =>
    let (t, st2) := nextTime τ st1
    let (v, st3) := nextNat ρ st2
    some ({ id := intRepr t ++ "-" ++ intRepr v,
            signature := r.signatureBase,
            subject := subjectStr sb,
            level := levelStr lv,
            question := r.question,
            options := opts.1,
            correctIndex := opts.2,
            explanation := r.explanation,
            diagramType := r.diagramType,
            diagramData := r.diagramData }, st3)

/-- generateQuestion: registry lookup by level-subject key; an unknown or
empty key falls back to mathSMPTemplates[0]; otherwise one template is picked
uniformly at random and executed. -/
def generateQuestionF (fuel : Nat) (ρ τ : Nat → Nat) (lv : Level) (sb : Subject)
    (st : RSt) : Option (GeneratedQuestion × RSt) :=
  match registryLookup (levelStr lv ++ "-" ++ subjectStr sb) with
  | Option.none =>
    match mathSMPTemplates.head? with
    | some t0 =>
      let (r, st1) := t0 ρ st
      buildQuestionF fuel ρ τ r lv sb st1
    | Option.none => Option.none
  | some ts =>
    if ts.length = 0 then
      match mathSMPTemplates.head? with
      | some t0 =>
        let (r, st1) := t0 ρ st
        buildQuestionF fuel ρ τ r lv sb st1
      | Option.none => Option.none
    else
      let (i, st1) := randIntF ρ st 0 ((ts.length : Int) - 1)
      match ts.get? i.toNat with
      | some t =>
        let (r, st2) := t ρ st1
        buildQuestionF fuel ρ τ r lv sb st2
      | Option.none => Option.none

/-- Dedup collection phase of generateQuestionBatch: while fewer than count
questions are collected and attempts remain, generate a question and keep it
when its signature is not yet in the local signature set.  Also returns the
number of generator calls spent. -/
def dedupLoop (fuel : Nat) (ρ τ : Nat → Nat) (lv : Level) (sb : Subject) :
    Nat → Nat → List GeneratedQuestion → List String → RSt →
      Option (List GeneratedQuestion × List String × Nat × RSt)
  | 0, _, qs, sigs, st => some (qs, sigs, 0, st)
  | a + 1, count, qs, sigs, st =>
    if count ≤ qs.length then some (qs, sigs, 0, st)
    else
      match generateQuestionF fuel ρ τ lv sb st with
      | Option.none => Option.none
      | some (q, st1) =>
        match
          (if q.signature ∈ sigs then
            dedupLoop fuel ρ τ lv sb a count qs sigs st1
          else
            dedupLoop fuel ρ τ lv sb a count (qs ++ [q]) (sigs ++ [q.signature]) st1)
        with
        | Option.none => Option.none
        | some (qs2, sigs2, calls, st2) => some (qs2, sigs2, calls + 1, st2)

/-- Force-fill phase: generate k further questions, suffixing each signature
with the dedup-bypass token -dup- plus the clock reading. -/
def fillLoop (fuel : Nat) (ρ τ : Nat → Nat) (lv : Level) (sb : Subject) :
    Nat → RSt → Option (List GeneratedQuestion × RSt)
  | 0, st => some ([], st)
  | k + 1, st =>
    match generateQuestionF fuel ρ τ lv sb st with
    | Option.none => Option.none
    | some (q, st1) =>
      let (t, st2) := nextTime τ st1
      match fillLoop fuel ρ τ lv sb k st2 with
      | Option.none => Option.none
      | some (rest, st3) =>
        some ({ q with signature := q.signature ++ "-dup-" ++ intRepr t } :: rest, st3)

/-- generateQuestionBatch: copy the caller exclusion set, run the dedup phase
with a retry budget of count * 50 calls, and if short of count set the
mastery flag and force-fill the remainder. -/
def generateQuestionBatchF (fuel : Nat) (ρ τ : Nat → Nat) (lv : Level)
    (sb : Subject) (count : Nat) (usedSignatures : List String) (st : RSt) :
    Option (List GeneratedQuestion × Bool × RSt) :=
  match dedupLoop fuel ρ τ lv sb (count * 50) count [] usedSignatures.dedup st with
  | Option.none => Option.none
  | some (qs, _, _, st1) =>
    if qs.length < count then
      match fillLoop fuel ρ τ lv sb (count - qs.length) st1 with
      | Option.none => Option.none
      | some (fills, st2) => some (qs ++ fills, true, st2)
    else
      some (qs, false, st1)

/-- String.prototype.toLowerCase (structural, ASCII case map). -/
def jsToLower (s : String) : String := ⟨s.data.map Char.toLower⟩

/-- String.prototype.trim (structural). -/
def jsTrim (s : String) : String :=
  ⟨((s.data.dropWhile Char.isWhitespace).reverse.dropWhile Char.isWhitespace).reverse⟩

/-- The opt.trim().toLowerCase() normalisation of the row mapper. -/
def normAns (s : String) : String := jsToLower (jsTrim s)

/-- Row of the quiz_history table. -/
structure QuizHistoryRow where
  id : String
  user_id : String
  subject : String
  question_signature : String
  is_correct : Bool
  created_at : String
deriving DecidableEq

/-- Row of the question_bank table. -/
structure QuestionBankRow where
  id : String
  level : String
  subject : String
  question : String
  options : List String
  answer : String
  explanation : String
  image_url : Option String
  created_at : String
deriving DecidableEq

/-- mapDbRowToQuestion: find correctIndex by case-insensitive trimmed match of
the answer text against the options, falling back to 0 on no match; the store
id becomes both id and signature; curated questions carry image_url and no
diagram. -/
def mapDbRowToQuestion (row : QuestionBankRow) : GeneratedQuestion :=
  { id := row.id,
    signature := row.id,
    subject := row.subject,
    level := row.level,
    question := row.question,
    options := row.options,
    correctIndex :=
      if 0 ≤ jsFindIndex (fun opt => normAns opt == normAns row.answer) row.options then
        jsFindIndex (fun opt => normAns opt == normAns row.answer) row.options
      else 0,
    explanation := if row.explanation = "" then "" else row.explanation,
    diagramType := DiagramType.none,
    diagramData := [],
    imageUrl :=
      match row.image_url with
      | some s => if s = "" then Option.none else some s
      | Option.none => Option.none }

/-- Outcome of the curated-store query: a rejected promise (caught by the
top-level catch), a response with an error field (the non-fatal branch), or a
row list. -/
inductive QueryOutcome
  | throwErr
  | errField
  | rows (rs : List QuestionBankRow)

/-- Environment of one fetchSmartSession call.  historyOutcome none models a
fetchQuizHistory transport failure that rejects the awaited promise (the
function itself maps query errors to an empty list, so an error-shaped
response is just some list); queryOutcome models the curated-store response;
rnd and time are the two streams. -/
structure HybridEnv where
  demo : Bool
  historyOutcome : Option (List QuizHistoryRow)
  queryOutcome : QueryOutcome
  rnd : Nat → Nat
  time : Nat → Nat

structure SessionResult where
  questions : List GeneratedQuestion
  mastery : Bool
deriving DecidableEq

def toSession (r : List GeneratedQuestion × Bool × RSt) : SessionResult := ⟨r.1, r.2.1⟩

def st0 : RSt := (0, 0)

/-- fetchSmartSession.  Demo mode short-circuits to a pure generated batch
with the default empty exclusion set.  Otherwise: history signatures are
collected; a throwing step lands in the top-level catch (batch with no
exclusions); a query error falls back to a batch excluding the history; on
success the curated rows are mapped, the remainder is generated excluding
history plus curated signatures, and the concatenation is shuffled.  Passing
the exclusion sets as lists matches the source Sets up to membership, which
is the only way the batch consumes them. -/
def fetchSmartSessionF (fuel : Nat) (env : HybridEnv) (lv : Level) (sb : Subject)
    (count : Nat) : Option SessionResult :=
  if env.demo then
    (generateQuestionBatchF fuel env.rnd env.time lv sb count [] st0).map toSession
  else
    match env.historyOutcome with
    | Option.none =>
      (generateQuestionBatchF fuel env.rnd env.time lv sb count [] st0).map toSession
    | some hist =>
      match env.queryOutcome with
      | QueryOutcome.throwErr =>
        (generateQuestionBatchF fuel env.rnd env.time lv sb count [] st0).map toSession
      | QueryOutcome.errField =>
        (generateQuestionBatchF fuel env.rnd env.time lv sb count
          (hist.map (fun h0 => h0.question_signature)) st0).map toSession
      | QueryOutcome.rows dbRows =>
        if 0 < (count : Int) - (dbRows.map mapDbRowToQuestion).length then
          match generateQuestionBatchF fuel env.rnd env.time lv sb
              ((count : Int) - (dbRows.map mapDbRowToQuestion).length).toNat
              (hist.map (fun h0 => h0.question_signature) ++
                (dbRows.map mapDbRowToQuestion).map (fun q => q.signature)) st0 with
          | Option.none => Option.none
          | some (gen, m, st1) =>
            some ⟨(shuffleF env.rnd st1 (dbRows.map mapDbRowToQuestion ++ gen)).1, m⟩
        else
          some ⟨(shuffleF env.rnd st0 (dbRows.map mapDbRowToQuestion ++ [])).1, false⟩

/-- Heap of JS Set objects, for the aliasing-sensitive frame property of
generateQuestionBatch: references index insertion-ordered membership lists. -/
structure SetHeap where
  store : Nat → List String
  next : Nat

/-- new Set(init): allocate a fresh reference holding a copy. -/
def heapAlloc (h : SetHeap) (init : List String) : Nat × SetHeap :=
  (h.next, ⟨fun n => if n = h.next then init.dedup else h.store n, h.next + 1⟩)

/-- Set.prototype.add on the set behind reference r. -/
def heapAdd (h : SetHeap) (r : Nat) (s : String) : SetHeap :=
  ⟨fun n => if n = r then addIfNew (h.store n) s else h.store n, h.next⟩

/-- Dedup phase of generateQuestionBatch with the local signature Set held in
the heap: only the set behind localRef is ever queried or extended. -/
def dedupLoopH (fuel : Nat) (ρ τ : Nat → Nat) (lv : Level) (sb : Subject) :
    Nat → Nat → List GeneratedQuestion → Nat → SetHeap → RSt →
      Option (List GeneratedQuestion × SetHeap × RSt)
  | 0, _, qs, _, h, st => some (qs, h, st)
  | a + 1, count, qs, localRef, h, st =>
    if count ≤ qs.length then some (qs, h, st)
    else
      match generateQuestionF fuel ρ τ lv sb st with
      | Option.none => Option.none
      | some (q, st1) =>
        if q.signature ∈ h.store localRef then
          dedupLoopH fuel ρ τ lv sb a count qs localRef h st1
        else
          dedupLoopH fuel ρ τ lv sb a count (qs ++ [q]) localRef
            (heapAdd h localRef q.signature) st1

/-- generateQuestionBatch over the Set heap: the caller passes a reference to
its usedSignatures set; the body allocates localSigs = new Set(usedSignatures)
and works only on that fresh reference. -/
def generateQuestionBatchH (fuel : Nat) (ρ τ : Nat → Nat) (lv : Level)
    (sb : Subject) (count : Nat) (usedRef : Nat) (h : SetHeap) (st : RSt) :
    Option (List GeneratedQuestion × Bool × SetHeap × RSt) :=
  match dedupLoopH fuel ρ τ lv sb (count * 50) count []
      (heapAlloc h (h.store usedRef)).1 (heapAlloc h (h.store usedRef)).2 st with
  | Option.none => Option.none
  | some (qs, h1, st1) =>
    if qs.length < count then
      match fillLoop fuel ρ τ lv sb (count - qs.length) st1 with
      | Option.none => Option.none
      | some (fills, st2) => some (qs ++ fills, true, h1, st2)
    else
      some (qs, false, h1, st1)

/-- Spec-described variant of generateQuestion for comparison: the spec states
that on an unknown level-subject pair the generator falls back to the default
template list and picks one template from that list uniformly at random.  The
registered-pair branch is identical to the source. -/
def generateQuestionSpecUniform (fuel : Nat) (ρ τ : Nat → Nat) (lv : Level)
    (sb : Subject) (st : RSt) : Option (GeneratedQuestion × RSt) :=
  match registryLookup (levelStr lv ++ "-" ++ subjectStr sb) with
  | Option.none =>
    let (i, st1) := randIntF ρ st 0 ((mathSMPTemplates.length : Int) - 1)
    match mathSMPTemplates.get? i.toNat with
    | some t =>
      let (r, st2) := t ρ st1
      buildQuestionF fuel ρ τ r lv sb st2
    | Option.none => Option.none
  | some ts =>
    if ts.length = 0 then
      let (i, st1) := randIntF ρ st 0 ((mathSMPTemplates.length : Int) - 1)
      match mathSMPTemplates.get? i.toNat with
      | some t =>
        let (r, st2) := t ρ st1
        buildQuestionF fuel ρ τ r lv sb st2
      | Option.none => Option.none
    else
      let (i, st1) := randIntF ρ st 0 ((ts.length : Int) - 1)
      match ts.get? i.toNat with
      | some t =>
        let (r, st2) := t ρ st1
        buildQuestionF fuel ρ τ r lv sb st2
      | Option.none => Option.none

theorem addIfNew_nodup {α : Type} [DecidableEq α] (l : List α) (x : α)
    (h : l.Nodup) : (addIfNew l x).Nodup := by
  unfold addIfNew
  by_cases hx : x ∈ l
  · simpa [hx]
  · simp only [if_neg hx]
    rw [List.nodup_append]
    exact ⟨h, List.nodup_singleton x, by simpa using hx⟩

theorem addIfNew_length_le {α : Type} [DecidableEq α] (l : List α) (x : α) :
    (addIfNew l x).length ≤ l.length + 1 := by
  unfold addIfNew
  by_cases hx : x ∈ l <;> simp [hx]

theorem not_mem_addIfNew {α : Type} [DecidableEq α] (l : List α) (x y : α)
    (hy : y ∉ l) (hxy : y ≠ x) : y ∉ addIfNew l x := by
  rw [mem_addIfNew]
  rintro (h | h)
  · exact hy h
  · exact hxy h

theorem distractorLoop_spec (ρ : Nat → Nat) (c : JNum) (s : Int) :
    ∀ (fuel : Nat) (st : RSt) (ds : List JNum) (res : List JNum × RSt),
      distractorLoop ρ c s fuel st ds = some res →
      ds.Nodup → c ∉ ds → ds.length ≤ 3 →
      res.1.length = 3 ∧ res.1.Nodup ∧ c ∉ res.1 := by
  intro fuel
  induction fuel with
  | zero =>
    intro st ds res h hnd hc hlen
    rw [distractorLoop] at h
    by_cases h3 : 3 ≤ ds.length
    · rw [if_pos h3] at h
      injection h with h
      subst h
      refine ⟨?_, hnd, hc⟩
      show ds.length = 3
      omega
    · rw [if_neg h3] at h
      exact absurd h (by simp)
  | succ f ih =>
    intro st ds res h hnd hc hlen
    rw [distractorLoop] at h
    by_cases h3 : 3 ≤ ds.length
    · rw [if_pos h3] at h
      injection h with h
      subst h
      refine ⟨?_, hnd, hc⟩
      show ds.length = 3
      omega
    · rw [if_neg h3] at h
      simp only [] at h
      set o := (randIntF ρ st (-s) s).1 with ho
      set d := if o = 0 then c.addInt ((ds.length : Int) + 1) else c.addInt o with hd
      by_cases hdc : d ≠ c
      · rw [if_pos hdc] at h
        refine ih _ _ _ h (addIfNew_nodup _ _ hnd) ?_ ?_
        · exact not_mem_addIfNew _ _ _ hc (Ne.symm hdc)
        · have := addIfNew_length_le ds d
          omega
      · rw [if_neg hdc] at h
        exact ih _ _ _ h hnd hc (by omega)

theorem getD_map_of_lt {α β : Type} (f : α → β) (l : List α) (i : Nat) (da : α)
    (db : β) (h : i < l.length) : (l.map f).getD i db = f (l.getD i da) := by
  induction l generalizing i with
  | nil => simp at h
  | cons x xs ih =>
    cases i with
    | zero => simp
    | succ k =>
      simp only [List.map_cons, List.getD_cons_succ]
      exact ih k (by simpa using h)

theorem makeOptionsF_spec (fuel : Nat) (ρ : Nat → Nat) (st : RSt) (c : JNum)
    (spread : Int) (opts : List String) (ci : Int) (st' : RSt)
    (h : makeOptionsF fuel ρ st c spread = some ((opts, ci), st')) :
    opts.length = 4 ∧ 0 ≤ ci ∧ ci < 4 ∧ opts.getD ci.toNat "" = renderNum c := by
  unfold makeOptionsF at h
  cases hdl : distractorLoop ρ c (spreadVal c spread) fuel st [] with
  | none => rw [hdl] at h; exact absurd h (by simp)
  | some p =>
    rw [hdl] at h
    obtain ⟨hlen3, hnd, hcm⟩ :=
      distractorLoop_spec ρ c (spreadVal c spread) fuel st [] p hdl (by simp) (by simp)
        (by simp)
    injection h with h1
    injection h1 with h2 hst
    injection h2 with ho hci
    subst ho
    subst hci
    have hperm := shuffleF_perm ρ p.2 (c :: p.1)
    have hlen : (shuffleF ρ p.2 (c :: p.1)).1.length = 4 := by
      rw [hperm.length_eq]
      simp [hlen3]
    have hmem : c ∈ (shuffleF ρ p.2 (c :: p.1)).1 :=
      hperm.mem_iff.mpr (by simp)
    obtain ⟨hge, hlt, hget⟩ := jsIndexOf_spec _ c c hmem
    simp only [shuffleF] at hperm hlen hmem hge hlt hget ⊢
    rw [hlen] at hlt
    refine ⟨by simpa using hlen, hge, by omega, ?_⟩
    rw [getD_map_of_lt renderNum _ _ c _ (by rw [hlen]; exact hlt)]
    rw [hget]

theorem makeOptionsStrF_spec (ρ : Nat → Nat) (st : RSt) (c : String)
    (others : List String) (h3 : 3 ≤ others.length) :
    (makeOptionsStrF ρ st c others).1.1.length = 4 ∧
    0 ≤ (makeOptionsStrF ρ st c others).1.2 ∧
    (makeOptionsStrF ρ st c others).1.2 < 4 ∧
    (makeOptionsStrF ρ st c others).1.1.getD
      ((makeOptionsStrF ρ st c others).1.2).toNat "" = c := by
  unfold makeOptionsStrF
  simp only []
  have hperm := shuffleF_perm ρ st (c :: others.take 3)
  have hlen : (shuffleF ρ st (c :: others.take 3)).1.length = 4 := by
    rw [hperm.length_eq]
    simp [List.length_take]
    omega
  have hmem : c ∈ (shuffleF ρ st (c :: others.take 3)).1 :=
    hperm.mem_iff.mpr (by simp)
  obtain ⟨hge, hlt, hget⟩ := jsIndexOf_spec _ c "" hmem
  exact ⟨hlen, hge, by omega, hget⟩

/-- Well-formedness every registered template guarantees: a string-answer
result always declares at least three wrong answers. -/
def wfT (r : TemplateResult) : Prop :=
  r.isStringAnswer = true → ∃ os, r.otherOptions = some os ∧ 3 ≤ os.length

/-- The declared correct answer of a template result, rendered as the option
set renders it: string answers verbatim, numeric answers as integer digits or
two fixed decimals. -/
def answerString (r : TemplateResult) : String :=
  if r.isStringAnswer && r.otherOptions.isSome then ansStr r.answer
  else renderNum (ansNum r.answer)

theorem buildQuestionF_spec (fuel : Nat) (ρ τ : Nat → Nat) (r : TemplateResult)
    (lv : Level) (sb : Subject) (st : RSt) (q : GeneratedQuestion) (st' : RSt)
    (hw : wfT r) (h : buildQuestionF fuel ρ τ r lv sb st = some (q, st')) :
    q.options.length = 4 ∧ 0 ≤ q.correctIndex ∧ q.correctIndex < 4 ∧
    q.options.getD q.correctIndex.toNat "" = answerString r ∧
    q.signature = r.signatureBase ∧ q.question = r.question ∧
    q.explanation = r.explanation ∧ q.level = levelStr lv ∧
    q.subject = subjectStr sb ∧ q.imageUrl = Option.none := by
  unfold buildQuestionF at h
  by_cases hb : (r.isStringAnswer && r.otherOptions.isSome) = true
  · rw [if_pos hb] at h
    rcases hmk : makeOptionsStrF ρ st (ansStr r.answer) (r.otherOptions.getD [])
      with ⟨⟨opts, ci⟩, st1⟩
    rw [hmk] at h
    simp only [] at h
    obtain ⟨hsa, hoo⟩ : r.isStringAnswer = true ∧ r.otherOptions.isSome = true := by
      simpa [Bool.and_eq_true] using hb
    obtain ⟨os, hos, hlen⟩ := hw hsa
    have h3 : 3 ≤ (r.otherOptions.getD []).length := by
      rw [hos]
      simpa using hlen
    have hspec := makeOptionsStrF_spec ρ st (ansStr r.answer) (r.otherOptions.getD []) h3
    rw [hmk] at hspec
    injection h with h1
    injection h1 with hq hst
    subst hq
    refine ⟨by simpa using hspec.1, by simpa using hspec.2.1, by simpa using hspec.2.2.1,
      ?_, rfl, rfl, rfl, rfl, rfl, rfl⟩
    rw [answerString, if_pos hb]
    simpa using hspec.2.2.2
  · rw [if_neg hb] at h
    cases hmk : makeOptionsF fuel ρ st (ansNum r.answer) (r.spread.getD 0) with
    | none =>
      rw [hmk] at h
      exact absurd h (by simp)
    | some p =>
      rcases p with ⟨⟨opts, ci⟩, st1⟩
      rw [hmk] at h
      simp only [] at h
      have hspec := makeOptionsF_spec fuel ρ st (ansNum r.answer) (r.spread.getD 0)
        opts ci st1 hmk
      injection h with h1
      injection h1 with hq hst
      subst hq
      refine ⟨by simpa using hspec.1, by simpa using hspec.2.1, by simpa using hspec.2.2.1,
        ?_, rfl, rfl, rfl, rfl, rfl, rfl⟩
      rw [answerString, if_neg hb]
      simpa using hspec.2.2.2

theorem topicTemplate_wf (topics : List Topic) (mkSig mkExpl : String → String)
    (hall : ∀ t ∈ topics, 3 ≤ t.others.length) (ρ : Nat → Nat) (st : RSt) :
    wfT ((topicTemplate topics mkSig mkExpl) ρ st).1 := by
  intro _
  refine ⟨(pickTopic topics ρ st).1.others, rfl, ?_⟩
  unfold pickTopic
  rcases hri : randIntF ρ st 0 ((topics.length : Int) - 1) with ⟨i, st1⟩
  simp only []
  cases hg : topics.get? i.toNat with
  | none => simp [dfltTopic]
  | some t =>
    simp only [Option.getD_some]
    exact hall t (List.get?_mem hg)

theorem mathSMP_wf : ∀ t ∈ mathSMPTemplates, ∀ (ρ : Nat → Nat) (st : RSt),
    wfT ((t) ρ st).1 := by
  intro t ht ρ st
  simp only [mathSMPTemplates, List.mem_cons, List.not_mem_nil, or_false] at ht
  rcases ht with rfl | rfl | rfl | rfl | rfl | rfl | rfl | rfl | rfl | rfl
  · exact fun hh => absurd hh (by simp [triangleTemplate])
  all_goals exact fun hh => absurd hh (by simp)

theorem ipaSMP_wf : ∀ t ∈ ipaSMPTemplates, ∀ (ρ : Nat → Nat) (st : RSt),
    wfT ((t) ρ st).1 := by
  intro t ht ρ st
  simp only [ipaSMPTemplates, List.mem_cons, List.not_mem_nil, or_false] at ht
  rcases ht with rfl | rfl | rfl | rfl | rfl | rfl <;>
    exact fun hh => absurd hh (by simp)

theorem ipsSMP_wf : ∀ t ∈ ipsSMPTemplates, ∀ (ρ : Nat → Nat) (st : RSt),
    wfT ((t) ρ st).1 := by
  intro t ht ρ st
  simp only [ipsSMPTemplates, List.mem_cons, List.not_mem_nil, or_false] at ht
  rcases ht with rfl
  exact topicTemplate_wf _ _ _ (by decide) ρ st

theorem mathSMA_wf : ∀ t ∈ mathSMATemplates, ∀ (ρ : Nat → Nat) (st : RSt),
    wfT ((t) ρ st).1 := by
  intro t ht ρ st
  simp only [mathSMATemplates, List.mem_cons, List.not_mem_nil, or_false] at ht
  rcases ht with rfl | rfl | rfl | rfl | rfl | rfl <;>
    exact fun hh => absurd hh (by simp)

theorem fisikaSMA_wf : ∀ t ∈ fisikaSMATemplates, ∀ (ρ : Nat → Nat) (st : RSt),
    wfT ((t) ρ st).1 := by
  intro t ht ρ st
  simp only [fisikaSMATemplates, List.mem_cons, List.not_mem_nil, or_false] at ht
  rcases ht with rfl | rfl | rfl | rfl | rfl | rfl <;>
    exact fun hh => absurd hh (by simp)

theorem kimiaSMA_wf : ∀ t ∈ kimiaSMATemplates, ∀ (ρ : Nat → Nat) (st : RSt),
    wfT ((t) ρ st).1 := by
  intro t ht ρ st
  simp only [kimiaSMATemplates, List.mem_cons, List.not_mem_nil, or_false] at ht
  rcases ht with rfl | rfl
  · exact topicTemplate_wf _ _ _ (by decide) ρ st
  · exact fun hh => absurd hh (by simp)

theorem biologiSMA_wf : ∀ t ∈ biologiSMATemplates, ∀ (ρ : Nat → Nat) (st : RSt),
    wfT ((t) ρ st).1 := by
  intro t ht ρ st
  simp only [biologiSMATemplates, List.mem_cons, List.not_mem_nil, or_false] at ht
  rcases ht with rfl
  exact topicTemplate_wf _ _ _ (by decide) ρ st

theorem informatikaSMA_wf : ∀ t ∈ informatikaSMATemplates, ∀ (ρ : Nat → Nat) (st : RSt),
    wfT ((t) ρ st).1 := by
  intro t ht ρ st
  simp only [informatikaSMATemplates, List.mem_cons, List.not_mem_nil, or_false] at ht
  rcases ht with rfl | rfl
  · exact fun _ => ⟨_, rfl, by simp⟩
  · exact topicTemplate_wf _ _ _ (by decide) ρ st

theorem astronomiSMA_wf : ∀ t ∈ astronomiSMATemplates, ∀ (ρ : Nat → Nat) (st : RSt),
    wfT ((t) ρ st).1 := by
  intro t ht ρ st
  simp only [astronomiSMATemplates, List.mem_cons, List.not_mem_nil, or_false] at ht
  rcases ht with rfl
  exact topicTemplate_wf _ _ _ (by decide) ρ st

theorem ekonomiSMA_wf : ∀ t ∈ ekonomiSMATemplates, ∀ (ρ : Nat → Nat) (st : RSt),
    wfT ((t) ρ st).1 := by
  intro t ht ρ st
  simp only [ekonomiSMATemplates, List.mem_cons, List.not_mem_nil, or_false] at ht
  rcases ht with rfl | rfl
  · exact fun hh => absurd hh (by simp)
  · exact topicTemplate_wf _ _ _ (by decide) ρ st

theorem kebumianSMA_wf : ∀ t ∈ kebumianSMATemplates, ∀ (ρ : Nat → Nat) (st : RSt),
    wfT ((t) ρ st).1 := by
  intro t ht ρ st
  simp only [kebumianSMATemplates, List.mem_cons, List.not_mem_nil, or_false] at ht
  rcases ht with rfl
  exact topicTemplate_wf _ _ _ (by decide) ρ st

theorem geografiSMA_wf : ∀ t ∈ geografiSMATemplates, ∀ (ρ : Nat → Nat) (st : RSt),
    wfT ((t) ρ st).1 := by
  intro t ht ρ st
  simp only [geografiSMATemplates, List.mem_cons, List.not_mem_nil, or_false] at ht
  rcases ht with rfl
  exact topicTemplate_wf _ _ _ (by decide) ρ st

set_option maxHeartbeats 2000000 in
theorem registryLookup_wf (key : String) (ts : List TemplateFn)
    (h : registryLookup key = some ts) :
    ∀ t ∈ ts, ∀ (ρ : Nat → Nat) (st : RSt), wfT ((t) ρ st).1 := by
  unfold registryLookup at h
  split_ifs at h
  · injection h with h; subst h; exact mathSMP_wf
  · injection h with h; subst h; exact ipaSMP_wf
  · injection h with h; subst h; exact ipsSMP_wf
  · injection h with h; subst h; exact mathSMA_wf
  · injection h with h; subst h; exact fisikaSMA_wf
  · injection h with h; subst h; exact kimiaSMA_wf
  · injection h with h; subst h; exact biologiSMA_wf
  · injection h with h; subst h; exact informatikaSMA_wf
  · injection h with h; subst h; exact astronomiSMA_wf
  · injection h with h; subst h; exact ekonomiSMA_wf
  · injection h with h; subst h; exact kebumianSMA_wf
  · injection h with h; subst h; exact geografiSMA_wf

theorem generateQuestionF_spec (fuel : Nat) (ρ τ : Nat → Nat) (lv : Level)
    (sb : Subject) (st : RSt) (q : GeneratedQuestion) (st' : RSt)
    (h : generateQuestionF fuel ρ τ lv sb st = some (q, st')) :
    q.options.length = 4 ∧ 0 ≤ q.correctIndex ∧ q.correctIndex < 4 ∧
    q.imageUrl = Option.none ∧ q.level = levelStr lv ∧ q.subject = subjectStr sb ∧
    ∃ r : TemplateResult,
      q.signature = r.signatureBase ∧ q.question = r.question ∧
      q.explanation = r.explanation ∧
      q.options.getD q.correctIndex.toNat "" = answerString r := by
  unfold generateQuestionF at h
  have pack :
      ∀ (r : TemplateResult) (st2 : RSt), wfT r →
        buildQuestionF fuel ρ τ r lv sb st2 = some (q, st') →
        q.options.length = 4 ∧ 0 ≤ q.correctIndex ∧ q.correctIndex < 4 ∧
        q.imageUrl = Option.none ∧ q.level = levelStr lv ∧ q.subject = subjectStr sb ∧
        ∃ r0 : TemplateResult,
          q.signature = r0.signatureBase ∧ q.question = r0.question ∧
          q.explanation = r0.explanation ∧
          q.options.getD q.correctIndex.toNat "" = answerString r0 := by
    intro r st2 hw hb
    obtain ⟨h1, h2, h3, h4, h5, h6, h7, h8, h9, h10⟩ :=
      buildQuestionF_spec fuel ρ τ r lv sb st2 q st' hw hb
    exact ⟨h1, h2, h3, h10, h8, h9, r, h5, h6, h7, h4⟩
  have hhead : mathSMPTemplates.head? = some triangleTemplate := rfl
  have htriwf : ∀ (st2 : RSt), wfT ((triangleTemplate) ρ st2).1 :=
    fun st2 => mathSMP_wf triangleTemplate (List.mem_cons_self _ _) ρ st2
  cases hreg : registryLookup (levelStr lv ++ "-" ++ subjectStr sb) with
  | none =>
    rw [hreg] at h
    simp only [] at h
    rw [hhead] at h
    simp only [] at h
    rcases ht : triangleTemplate ρ st with ⟨r, st1⟩
    rw [ht] at h
    simp only [] at h
    refine pack r st1 ?_ h
    have := htriwf st
    rwa [ht] at this
  | some ts =>
    rw [hreg] at h
    simp only [] at h
    by_cases hlen : ts.length = 0
    · rw [if_pos hlen] at h
      rw [hhead] at h
      simp only [] at h
      rcases ht : triangleTemplate ρ st with ⟨r, st1⟩
      rw [ht] at h
      simp only [] at h
      refine pack r st1 ?_ h
      have := htriwf st
      rwa [ht] at this
    · rw [if_neg hlen] at h
      have hpos : 0 < ts.length := Nat.pos_of_ne_zero hlen
      rcases hri : randIntF ρ st 0 ((ts.length : Int) - 1) with ⟨i, st1⟩
      rw [hri] at h
      simp only [] at h
      have hpick := randIntF_pick_lt ρ st ts.length hpos
      rw [hri] at hpick
      simp only [] at hpick
      have hget : ts.get? i.toNat = some (ts.get ⟨i.toNat, hpick.2⟩) :=
        List.get?_eq_get hpick.2
      rw [hget] at h
      simp only [] at h
      rcases ht : (ts.get ⟨i.toNat, hpick.2⟩) ρ st1 with ⟨r, st2⟩
      rw [ht] at h
      simp only [] at h
      refine pack r st2 ?_ h
      have := registryLookup_wf _ _ hreg _ (List.get?_mem hget) ρ st1
      rwa [ht] at this

theorem dedupLoop_spec (fuel : Nat) (ρ τ : Nat → Nat) (lv : Level) (sb : Subject)
    (P : GeneratedQuestion → Prop)
    (hP : ∀ (st : RSt) (q : GeneratedQuestion) (st' : RSt),
      generateQuestionF fuel ρ τ lv sb st = some (q, st') → P q) :
    ∀ (attempts count : Nat) (qs : List GeneratedQuestion) (sigs : List String)
      (st : RSt) (res : List GeneratedQuestion × List String × Nat × RSt),
      dedupLoop fuel ρ τ lv sb attempts count qs sigs st = some res →
      qs.length ≤ count →
      ∃ newQs : List GeneratedQuestion,
        res.1 = qs ++ newQs ∧
        res.2.1 = sigs ++ newQs.map (fun q => q.signature) ∧
        (newQs.map (fun q => q.signature)).Nodup ∧
        (∀ s0 ∈ newQs.map (fun q => q.signature), s0 ∉ sigs) ∧
        res.1.length ≤ count ∧
        res.2.2.1 ≤ attempts ∧
        (∀ q ∈ newQs, P q) := by
  intro attempts
  induction attempts with
  | zero =>
    intro count qs sigs st res h hlen
    rw [dedupLoop] at h
    injection h with h
    subst h
    exact ⟨[], by simp, by simp, by simp, by simp, by simpa using hlen, by simp, by simp⟩
  | succ a ih =>
    intro count qs sigs st res h hlen
    rw [dedupLoop] at h
    by_cases hc : count ≤ qs.length
    · rw [if_pos hc] at h
      injection h with h
      subst h
      exact ⟨[], by simp, by simp, by simp, by simp, by simpa using hlen, by simp, by simp⟩
    · rw [if_neg hc] at h
      cases hg : generateQuestionF fuel ρ τ lv sb st with
      | none =>
        rw [hg] at h
        exact absurd h (by simp)
      | some p =>
        rcases p with ⟨q, st1⟩
        rw [hg] at h
        simp only [] at h
        by_cases hm : q.signature ∈ sigs
        · rw [if_pos hm] at h
          cases hrec : dedupLoop fuel ρ τ lv sb a count qs sigs st1 with
          | none =>
            rw [hrec] at h
            exact absurd h (by simp)
          | some r2 =>
            rw [hrec] at h
            simp only [] at h
            obtain ⟨newQs, e1, e2, e3, e4, e5, e6, e7⟩ := ih count qs sigs st1 r2 hrec hlen
            injection h with h
            subst h
            refine ⟨newQs, ?_, ?_, e3, e4, ?_, ?_, e7⟩
            · simpa using e1
            · simpa using e2
            · simpa using e5
            · show r2.2.2.1 + 1 ≤ a + 1
              omega
        · rw [if_neg hm] at h
          cases hrec : dedupLoop fuel ρ τ lv sb a count (qs ++ [q])
              (sigs ++ [q.signature]) st1 with
          | none =>
            rw [hrec] at h
            exact absurd h (by simp)
          | some r2 =>
            rw [hrec] at h
            simp only [] at h
            obtain ⟨newQs, e1, e2, e3, e4, e5, e6, e7⟩ :=
              ih count (qs ++ [q]) (sigs ++ [q.signature]) st1 r2 hrec (by simp; omega)
            injection h with h
            subst h
            have hqsig : q.signature ∉ newQs.map (fun q0 => q0.signature) := by
              intro hin
              exact absurd (by simp : q.signature ∈ sigs ++ [q.signature]) (e4 _ hin)
            refine ⟨q :: newQs, ?_, ?_, ?_, ?_, ?_, ?_, ?_⟩
            · simpa [List.append_assoc] using e1
            · simpa [List.append_assoc] using e2
            · simp only [List.map_cons, List.nodup_cons]
              exact ⟨hqsig, e3⟩
            · intro s0 hs0
              simp only [List.map_cons, List.mem_cons] at hs0
              rcases hs0 with rfl | hs0
              · exact hm
              · intro hmem
                exact e4 s0 hs0 (by simp [hmem])
            · simpa using e5
            · show r2.2.2.1 + 1 ≤ a + 1
              omega
            · intro q0 hq0
              rcases List.mem_cons.mp hq0 with rfl | hq0
              · exact hP st q0 st1 hg
              · exact e7 q0 hq0

theorem fillLoop_spec (fuel : Nat) (ρ τ : Nat → Nat) (lv : Level) (sb : Subject)
    (P : GeneratedQuestion → Prop)
    (hP : ∀ (st : RSt) (q : GeneratedQuestion) (st' : RSt),
      generateQuestionF fuel ρ τ lv sb st = some (q, st') → P q) :
    ∀ (k : Nat) (st : RSt) (res : List GeneratedQuestion × RSt),
      fillLoop fuel ρ τ lv sb k st = some res →
      res.1.length = k ∧
      ∀ f ∈ res.1, ∃ (q : GeneratedQuestion) (tv : Nat), P q ∧
        f = { q with signature := q.signature ++ "-dup-" ++ intRepr tv } := by
  intro k
  induction k with
  | zero =>
    intro st res h
    rw [fillLoop] at h
    injection h with h
    subst h
    exact ⟨rfl, by simp⟩
  | succ m ih =>
    intro st res h
    rw [fillLoop] at h
    cases hg : generateQuestionF fuel ρ τ lv sb st with
    | none =>
      rw [hg] at h
      exact absurd h (by simp)
    | some p =>
      rcases p with ⟨q, st1⟩
      rw [hg] at h
      simp only [] at h
      cases hrec : fillLoop fuel ρ τ lv sb m (nextTime τ st1).2 with
      | none =>
        rw [hrec] at h
        exact absurd h (by simp)
      | some r2 =>
        rw [hrec] at h
        simp only [] at h
        obtain ⟨hlen, hall⟩ := ih (nextTime τ st1).2 r2 hrec
        injection h with h
        subst h
        constructor
        · simp [hlen]
        · intro f hf
          simp only [List.mem_cons] at hf
          rcases hf with rfl | hf
          · exact ⟨q, (nextTime τ st1).1, hP st q st1 hg, rfl⟩
          · exact hall f hf

/-- Per-question invariants every generator output satisfies. -/
def QProps (lv : Level) (sb : Subject) (q : GeneratedQuestion) : Prop :=
  q.options.length = 4 ∧ 0 ≤ q.correctIndex ∧ q.correctIndex < 4 ∧
  q.imageUrl = Option.none ∧ q.level = levelStr lv ∧ q.subject = subjectStr sb

theorem generateQuestionF_qprops (fuel : Nat) (ρ τ : Nat → Nat) (lv : Level)
    (sb : Subject) (st : RSt) (q : GeneratedQuestion) (st' : RSt)
    (h : generateQuestionF fuel ρ τ lv sb st = some (q, st')) : QProps lv sb q := by
  obtain ⟨h1, h2, h3, h4, h5, h6, _⟩ := generateQuestionF_spec fuel ρ τ lv sb st q st' h
  exact ⟨h1, h2, h3, h4, h5, h6⟩

theorem qprops_sig_update (lv : Level) (sb : Subject) (q : GeneratedQuestion)
    (s : String) (h : QProps lv sb q) :
    QProps lv sb { q with signature := s } := h

theorem generateQuestionBatchF_spec (fuel : Nat) (ρ τ : Nat → Nat) (lv : Level)
    (sb : Subject) (count : Nat) (used : List String) (st : RSt)
    (res : List GeneratedQuestion × Bool × RSt)
    (h : generateQuestionBatchF fuel ρ τ lv sb count used st = some res) :
    res.1.length = count ∧
    (∀ q ∈ res.1, QProps lv sb q) ∧
    ∃ dqs fills : List GeneratedQuestion,
      res.1 = dqs ++ fills ∧
      (dqs.map (fun q => q.signature)).Nodup ∧
      (∀ q ∈ dqs, q.signature ∉ used) ∧
      (res.2.1 = false → fills = []) ∧
      (res.2.1 = true ↔ dqs.length < count) ∧
      (∀ f ∈ fills, ∃ (q : GeneratedQuestion) (tv : Nat),
        f = { q with signature := q.signature ++ "-dup-" ++ intRepr tv }) := by
  unfold generateQuestionBatchF at h
  cases hd : dedupLoop fuel ρ τ lv sb (count * 50) count [] used.dedup st with
  | none =>
    rw [hd] at h
    exact absurd h (by simp)
  | some dres =>
    rcases dres with ⟨dqs, sigs, calls, st1⟩
    rw [hd] at h
    simp only [] at h
    obtain ⟨newQs, e1, e2, e3, e4, e5, e6, e7⟩ :=
      dedupLoop_spec fuel ρ τ lv sb (QProps lv sb)
        (generateQuestionF_qprops fuel ρ τ lv sb) (count * 50) count [] used.dedup st
        _ hd (by simp)
    simp only [List.nil_append] at e1
    subst e1
    simp only [] at e2 e3 e4 e5 e7
    have hnotused : ∀ q ∈ dqs, q.signature ∉ used := by
      intro q hq hmem
      exact e4 q.signature (List.mem_map_of_mem _ hq) (List.mem_dedup.mpr hmem)
    by_cases hlt : dqs.length < count
    · rw [if_pos hlt] at h
      cases hf : fillLoop fuel ρ τ lv sb (count - dqs.length) st1 with
      | none =>
        rw [hf] at h
        exact absurd h (by simp)
      | some fres =>
        rcases fres with ⟨fills, st2⟩
        rw [hf] at h
        simp only [] at h
        injection h with h
        subst h
        obtain ⟨flen, fall⟩ :=
          fillLoop_spec fuel ρ τ lv sb (QProps lv sb)
            (generateQuestionF_qprops fuel ρ τ lv sb) (count - dqs.length) st1 _ hf
        simp only [] at flen fall
        refine ⟨?_, ?_, dqs, fills, rfl, e3, hnotused, ?_, ?_, ?_⟩
        · show (dqs ++ fills).length = count
          simp only [List.length_append, flen]
          omega
        · intro q hq
          rcases List.mem_append.mp hq with hq | hq
          · exact e7 q hq
          · obtain ⟨q0, tv, hP0, hfe⟩ := fall q hq
            rw [hfe]
            exact qprops_sig_update lv sb q0 _ hP0
        · intro hcontra
          exact absurd hcontra (by simp)
        · simp [hlt]
        · intro f hf0
          obtain ⟨q0, tv, _, hfe⟩ := fall f hf0
          exact ⟨q0, tv, hfe⟩
    · rw [if_neg hlt] at h
      injection h with h
      subst h
      refine ⟨?_, ?_, dqs, [], by simp, e3, hnotused, fun _ => rfl, ?_, by simp⟩
      · show dqs.length = count
        omega
      · intro q hq
        exact e7 q (by simpa using hq)
      · simp [hlt]

theorem jsFindIndex_first {α : Type} (p : α → Bool) (d : α) :
    ∀ (l : List α) (j : Nat), (j : Int) < jsFindIndex p l → p (l.getD j d) = false := by
  intro l
  induction l with
  | nil =>
    intro j hj
    simp only [jsFindIndex] at hj
    omega
  | cons x xs ih =>
    intro j hj
    by_cases hx : p x = true
    · simp only [jsFindIndex, if_pos hx] at hj
      omega
    · by_cases hr : jsFindIndex p xs = -1
      · simp only [jsFindIndex, if_neg hx, hr, if_pos] at hj
        omega
      · simp only [jsFindIndex, if_neg hx, if_neg hr] at hj
        cases j with
        | zero =>
          simpa using (by simpa using hx : p x = false)
        | succ k =>
          simp only [List.getD_cons_succ]
          exact ih k (by omega)

theorem heapAdd_frame (h : SetHeap) (r : Nat) (s : String) (rr : Nat) (hne : rr ≠ r) :
    (heapAdd h r s).store rr = h.store rr := by
  unfold heapAdd
  simp [if_neg hne]

theorem dedupLoopH_frame (fuel : Nat) (ρ τ : Nat → Nat) (lv : Level) (sb : Subject) :
    ∀ (attempts count : Nat) (qs : List GeneratedQuestion) (localRef : Nat)
      (h : SetHeap) (st : RSt) (res : List GeneratedQuestion × SetHeap × RSt),
      dedupLoopH fuel ρ τ lv sb attempts count qs localRef h st = some res →
      ∀ rr, rr ≠ localRef → res.2.1.store rr = h.store rr := by
  intro attempts
  induction attempts with
  | zero =>
    intro count qs localRef h st res hh rr hne
    rw [dedupLoopH] at hh
    injection hh with hh
    subst hh
    rfl
  | succ a ih =>
    intro count qs localRef h st res hh rr hne
    rw [dedupLoopH] at hh
    by_cases hc : count ≤ qs.length
    · rw [if_pos hc] at hh
      injection hh with hh
      subst hh
      rfl
    · rw [if_neg hc] at hh
      cases hg : generateQuestionF fuel ρ τ lv sb st with
      | none =>
        rw [hg] at hh
        exact absurd hh (by simp)
      | some p =>
        rcases p with ⟨q, st1⟩
        rw [hg] at hh
        simp only [] at hh
        by_cases hm : q.signature ∈ h.store localRef
        · rw [if_pos hm] at hh
          exact ih count qs localRef h st1 res hh rr hne
        · rw [if_neg hm] at hh
          have := ih count (qs ++ [q]) localRef (heapAdd h localRef q.signature) st1
            res hh rr hne
          rw [this]
          exact heapAdd_frame h localRef q.signature rr hne

/-- Periodic random stream for witnesses: one SMP-Matematika generator call
consumes exactly ten draws, so calls stay aligned to the period. -/
def rhoGood : Nat → Nat := fun n => [0, 0, 0, 0, 1, 3, 0, 0, 0, 0].getD (n % 10) 0

/-- Constant-zero random stream, a possible Math.random output sequence. -/
def rhoZero : Nat → Nat := fun _ => 0

/-- Constant clock: every Date.now read falls in the same millisecond. -/
def tauZero : Nat → Nat := fun _ => 0

/-- Question produced by every SMP-IPS generator call under the constant-zero
streams: topic 0 (Jakarta), options shuffled by always-zero draws. -/
def jakartaQ : GeneratedQuestion :=
  { id := "0-0", signature := "ips-Jakarta", subject := "IPS", level := "SMP",
    question := "Apa ibu kota Indonesia?",
    options := ["Surabaya", "Bandung", "Medan", "Jakarta"],
    correctIndex := 3,
    explanation := "Jawaban yang benar: Jakarta",
    diagramType := DiagramType.none, diagramData := [] }

theorem generateIPS_const (a b : Nat) :
    generateQuestionF 10 rhoZero tauZero Level.SMP Subject.IPS (a, b) =
      some (jakartaQ, (a + 6, b + 1)) := rfl

theorem dedupLoopIPS_rejectAll : ∀ (n : Nat) (a b : Nat),
    dedupLoop 10 rhoZero tauZero Level.SMP Subject.IPS n 2 [] ["ips-Jakarta"] (a, b) =
      some ([], ["ips-Jakarta"], n, (a + 6 * n, b + n)) := by
  intro n
  induction n with
  | zero =>
    intro a b
    simp [dedupLoop]
  | succ k ih =>
    intro a b
    rw [show dedupLoop 10 rhoZero tauZero Level.SMP Subject.IPS (k + 1) 2 []
        ["ips-Jakarta"] (a, b) =
      (match
        (if jakartaQ.signature ∈ ["ips-Jakarta"] then
          dedupLoop 10 rhoZero tauZero Level.SMP Subject.IPS k 2 [] ["ips-Jakarta"]
            (a + 6, b + 1)
        else
          dedupLoop 10 rhoZero tauZero Level.SMP Subject.IPS k 2 [jakartaQ]
            (["ips-Jakarta"] ++ [jakartaQ.signature]) (a + 6, b + 1))
      with
      | Option.none => Option.none
      | some (qs2, sigs2, calls, st2) => some (qs2, sigs2, calls + 1, st2)) from rfl]
    rw [if_pos (by simp [jakartaQ])]
    rw [ih (a + 6) (b + 1)]
    simp
    constructor
    · omega
    · omega

/-- C2 counterexample: with the constant-zero streams (every clock read in
the same millisecond, every random draw zero), SMP-IPS, count 2 and the
already-seen signature ips-Jakarta excluded, the batch exhausts its budget
and returns TWO questions with the SAME signature ips-Jakarta-dup-0,
refuting the claimed batch-wide signature uniqueness. -/
theorem claim2_counterexample :
    (generateQuestionBatchF 10 rhoZero tauZero Level.SMP Subject.IPS 2 ["ips-Jakarta"]
        (0, 0)).map (fun r => (r.1.map (fun q => q.signature), r.2.1)) =
      some (["ips-Jakarta-dup-0", "ips-Jakarta-dup-0"], true) := by
  unfold generateQuestionBatchF
  rw [show (["ips-Jakarta"].dedup) = ["ips-Jakarta"] from by decide]
  rw [show ((2 * 50 : Nat)) = 100 from rfl]
  rw [dedupLoopIPS_rejectAll 100 0 0]
  rfl

/-- C2 (amended): generateQuestionBatch never returns two questions with the
same signature and never one whose signature is in the excluded set, UNLESS
the mastery flag is true; in that case only the dedup-phase prefix keeps both
guarantees, while the force-filled tail carries the -dup- time-based suffix
and may both revisit excluded signatures and repeat a signature when base and
time token coincide. -/
theorem claim2_amended (fuel : Nat) (ρ τ : Nat → Nat) (lv : Level) (sb : Subject)
    (count : Nat) (used : List String) (st : RSt)
    (res : List GeneratedQuestion × Bool × RSt)
    (h : generateQuestionBatchF fuel ρ τ lv sb count used st = some res) :
    ∃ dqs fills : List GeneratedQuestion,
      res.1 = dqs ++ fills ∧
      (dqs.map (fun q => q.signature)).Nodup ∧
      (∀ q ∈ dqs, q.signature ∉ used) ∧
      (res.2.1 = false → fills = []) ∧
      (∀ f ∈ fills, ∃ (q : GeneratedQuestion) (tv : Nat),
        f = { q with signature := q.signature ++ "-dup-" ++ intRepr tv }) := by
  obtain ⟨_, _, dqs, fills, e1, e2, e3, e4, _, e6⟩ :=
    generateQuestionBatchF_spec fuel ρ τ lv sb count used st res h
  exact ⟨dqs, fills, e1, e2, e3, e4, e6⟩

theorem claim2_witness :
    ∃ res, generateQuestionBatchF 10 rhoGood tauZero Level.SMP Subject.Matematika 1 []
        (0, 0) = some res ∧
      ∃ dqs fills : List GeneratedQuestion,
        res.1 = dqs ++ fills ∧
        (dqs.map (fun q => q.signature)).Nodup ∧
        (∀ q ∈ dqs, q.signature ∉ ([] : List String)) ∧
        (res.2.1 = false → fills = []) ∧
        (∀ f ∈ fills, ∃ (q : GeneratedQuestion) (tv : Nat),
          f = { q with signature := q.signature ++ "-dup-" ++ intRepr tv }) := by
  obtain ⟨res, hres⟩ : ∃ r, generateQuestionBatchF 10 rhoGood tauZero Level.SMP
      Subject.Matematika 1 [] (0, 0) = some r := ⟨_, rfl⟩
  exact ⟨res, hres,
    claim2_amended 10 rhoGood tauZero Level.SMP Subject.Matematika 1 [] (0, 0) res hres⟩

/-- C3: every question generateQuestion produces has exactly four options, an
in-range correctIndex, and the option at correctIndex is the producing
template result's declared correct answer rendered as a string (integers as
plain digits, other numbers fixed to two decimals, string answers verbatim). -/
theorem claim3_generated_options (fuel : Nat) (ρ τ : Nat → Nat) (lv : Level)
    (sb : Subject) (st : RSt) (q : GeneratedQuestion) (st' : RSt)
    (h : generateQuestionF fuel ρ τ lv sb st = some (q, st')) :
    q.options.length = 4 ∧ 0 ≤ q.correctIndex ∧ q.correctIndex < 4 ∧
    ∃ r : TemplateResult,
      q.signature = r.signatureBase ∧ q.question = r.question ∧
      q.explanation = r.explanation ∧
      q.options.getD q.correctIndex.toNat "" = answerString r := by
  obtain ⟨h1, h2, h3, _, _, _, r, h7, h8, h9, h10⟩ :=
    generateQuestionF_spec fuel ρ τ lv sb st q st' h
  exact ⟨h1, h2, h3, r, h7, h8, h9, h10⟩

theorem claim3_witness :
    ∃ q st', generateQuestionF 10 rhoGood tauZero Level.SMP Subject.Matematika (0, 0) =
        some (q, st') ∧ q.options.length = 4 ∧ 0 ≤ q.correctIndex ∧ q.correctIndex < 4 := by
  obtain ⟨p, hp⟩ : ∃ p, generateQuestionF 10 rhoGood tauZero Level.SMP
      Subject.Matematika (0, 0) = some p := ⟨_, rfl⟩
  obtain ⟨h1, h2, h3, _⟩ := claim3_generated_options 10 rhoGood tauZero Level.SMP
    Subject.Matematika (0, 0) p.1 p.2 (by rw [hp])
  exact ⟨p.1, p.2, by rw [hp], h1, h2, h3⟩

/-- C7 counterexample: the distractor loop of makeOptions need not terminate.
With correct value 0 and spread 1, a random source that always yields the
draw 0 makes every sampled offset -1, so after the first distractor -1 the
set never grows: no fuel bound suffices, refuting termination for every
random sequence (the offset-zero resolution never even fires). -/
theorem claim7_counterexample :
    ¬ ∃ (fuel : Nat) (p : (List String × Int) × RSt),
        makeOptionsF fuel rhoZero st0 (JNum.ofInt 0) 1 = some p := by
  have key : ∀ (fuel : Nat) (st : RSt) (ds : List JNum),
      (ds = [] ∨ ds = [JNum.ofInt (-1)]) →
      distractorLoop rhoZero (JNum.ofInt 0) 1 fuel st ds = Option.none := by
    intro fuel
    induction fuel with
    | zero =>
      intro st ds hds
      rw [distractorLoop]
      rcases hds with rfl | rfl <;> simp
    | succ f ih =>
      intro st ds hds
      rcases hds with rfl | rfl
      · show distractorLoop rhoZero (JNum.ofInt 0) 1 f (st.1 + 1, st.2)
          [JNum.ofInt (-1)] = Option.none
        exact ih _ _ (Or.inr rfl)
      · show distractorLoop rhoZero (JNum.ofInt 0) 1 f (st.1 + 1, st.2)
          [JNum.ofInt (-1)] = Option.none
        exact ih _ _ (Or.inr rfl)
  rintro ⟨fuel, p, hp⟩
  unfold makeOptionsF at hp
  rw [show spreadVal (JNum.ofInt 0) 1 = 1 from rfl] at hp
  rw [key fuel st0 [] (Or.inl rfl)] at hp
  exact absurd hp (by simp)

/-- C7 (amended): termination of the distractor loop is not guaranteed for
every random sequence, but whenever the loop does return, it returns exactly
three pairwise-distinct distractors, each distinct from the correct value;
the set-size-plus-one replacement fires when the sampled offset is zero, not
when the spread is exhausted. -/
theorem claim7_amended (ρ : Nat → Nat) (c : JNum) (s : Int) (fuel : Nat) (st : RSt)
    (ds : List JNum) (st' : RSt)
    (h : distractorLoop ρ c s fuel st [] = some (ds, st')) :
    ds.length = 3 ∧ ds.Nodup ∧ c ∉ ds :=
  distractorLoop_spec ρ c s fuel st [] (ds, st') h (by simp) (by simp) (by simp)

theorem claim7_witness :
    ∃ ds st', distractorLoop rhoGood (⟨7500⟩ : JNum) 2 10 (3, 0) [] = some (ds, st') ∧
      ds.length = 3 ∧ ds.Nodup ∧ (⟨7500⟩ : JNum) ∉ ds := by
  obtain ⟨p, hp⟩ : ∃ p, distractorLoop rhoGood (⟨7500⟩ : JNum) 2 10 (3, 0) [] =
      some p := ⟨_, rfl⟩
  obtain ⟨h1, h2, h3⟩ := claim7_amended rhoGood ⟨7500⟩ 2 10 (3, 0) p.1 p.2 (by rw [hp])
  exact ⟨p.1, p.2, by rw [hp], h1, h2, h3⟩


/-! ### Claims C6, C1, C4, C9, C5, C8, C10 -/

/-- Random stream exhibiting the fallback divergence: its first value 1 would
select the second default template under a uniform pick, while the source
ignores it and runs the first default template. -/
def rhoC6 : Nat → Nat := fun n => [1, 1, 2, 4, 5, 0].getD n 0

/-- C6 counterexample: on the unregistered pair (SMP, Fisika) the source
generator always runs the FIRST default template (triangle area), consuming
no template-pick draw, while the spec text says one template of the default
list is picked uniformly at random.  On the same random stream the two
disagree: the code produces the triangle signature while a uniform pick over
the ten default templates selects the rectangle template. -/
theorem claim6_counterexample :
    (generateQuestionF 30 rhoC6 tauZero Level.SMP Subject.Fisika st0).map
        (fun p => p.1.signature) = some ("mat-tri-b6-h4") ∧
    (generateQuestionSpecUniform 30 rhoC6 tauZero Level.SMP Subject.Fisika st0).map
        (fun p => p.1.signature) = some ("mat-rect-l5-w5") ∧
    some ("mat-tri-b6-h4") ≠ some ("mat-rect-l5-w5") :=
  ⟨by decide, by decide, by decide⟩

/-- C6 (amended): for every (level, subject) pair with no registered template
list, generateQuestion never throws: it deterministically runs the first
template of the fixed default list (not a uniform pick), and every question
it returns carries the requested level and subject, four options, and an
in-range correct index. -/
theorem claim6_fallback (fuel : Nat) (ρ τ : Nat → Nat) (lv : Level) (sb : Subject)
    (st : RSt)
    (hnone : registryLookup (levelStr lv ++ "-" ++ subjectStr sb) = Option.none) :
    generateQuestionF fuel ρ τ lv sb st =
      buildQuestionF fuel ρ τ (triangleTemplate ρ st).1 lv sb (triangleTemplate ρ st).2 ∧
    ∀ (q : GeneratedQuestion) (st2 : RSt),
      generateQuestionF fuel ρ τ lv sb st = some (q, st2) →
      q.level = levelStr lv ∧ q.subject = subjectStr sb ∧ q.options.length = 4 ∧
      0 ≤ q.correctIndex ∧ q.correctIndex < 4 := by
  have h1 : generateQuestionF fuel ρ τ lv sb st =
      buildQuestionF fuel ρ τ (triangleTemplate ρ st).1 lv sb (triangleTemplate ρ st).2 := by
    unfold generateQuestionF
    rw [hnone]
    rw [show mathSMPTemplates.head? = some triangleTemplate from rfl]
  refine ⟨h1, ?_⟩
  intro q st2 hq
  obtain ⟨g1, g2, g3, _, g5, g6, _⟩ := generateQuestionF_spec fuel ρ τ lv sb st q st2 hq
  exact ⟨g5, g6, g1, g2, g3⟩

set_option maxHeartbeats 1000000 in
/-- Concrete fallback run of claim6_fallback: (SMP, Fisika) is unregistered
and the produced question carries the requested level and subject. -/
theorem claim6_witness :
    registryLookup (levelStr Level.SMP ++ "-" ++ subjectStr Subject.Fisika) =
      Option.none ∧
    ∃ (q : GeneratedQuestion) (st2 : RSt),
      generateQuestionF 10 rhoGood tauZero Level.SMP Subject.Fisika st0 = some (q, st2) ∧
      q.level = levelStr Level.SMP ∧ q.subject = subjectStr Subject.Fisika ∧
      q.options.length = 4 := by
  have hnone : registryLookup (levelStr Level.SMP ++ "-" ++ subjectStr Subject.Fisika) =
      Option.none := rfl
  obtain ⟨p, hp⟩ :
      ∃ p, generateQuestionF 10 rhoGood tauZero Level.SMP Subject.Fisika st0 = some p :=
    ⟨_, rfl⟩
  obtain ⟨g5, g6, g4, _, _⟩ :=
    (claim6_fallback 10 rhoGood tauZero Level.SMP Subject.Fisika st0 hnone).2 p.1 p.2 hp
  exact ⟨hnone, p.1, p.2, hp, g5, g6, g4⟩

/-- C1: assuming the curated store returns at most count rows, every branch of
fetchSmartSession (demo mode, history failure, query error, query success)
returns a session of exactly count questions. -/
theorem claim1_session_length (fuel : Nat) (env : HybridEnv) (lv : Level)
    (sb : Subject) (count : Nat) (res : SessionResult)
    (hcount : 1 ≤ count)
    (hrows : ∀ rs, env.queryOutcome = QueryOutcome.rows rs → rs.length ≤ count)
    (h : fetchSmartSessionF fuel env lv sb count = some res) :
    res.questions.length = count := by
  have hbatch : ∀ (used : List String),
      (generateQuestionBatchF fuel env.rnd env.time lv sb count used st0).map toSession =
        some res → res.questions.length = count := by
    intro used hb
    cases hg : generateQuestionBatchF fuel env.rnd env.time lv sb count used st0 with
    | none => rw [hg] at hb; exact absurd hb (by simp)
    | some b =>
      rw [hg] at hb
      have hb2 : some (toSession b) = some res := hb
      injection hb2 with hb2
      rw [← hb2]
      exact (generateQuestionBatchF_spec fuel env.rnd env.time lv sb count used st0 b hg).1
  unfold fetchSmartSessionF at h
  by_cases hd : env.demo = true
  · rw [if_pos hd] at h
    exact hbatch [] h
  · rw [if_neg hd] at h
    cases hh : env.historyOutcome with
    | none =>
      rw [hh] at h
      simp only [] at h
      exact hbatch [] h
    | some hist =>
      rw [hh] at h
      simp only [] at h
      cases hq0 : env.queryOutcome with
      | throwErr =>
        rw [hq0] at h
        simp only [] at h
        exact hbatch [] h
      | errField =>
        rw [hq0] at h
        simp only [] at h
        exact hbatch _ h
      | rows dbRows =>
        rw [hq0] at h
        simp only [] at h
        have hrs : dbRows.length ≤ count := hrows dbRows hq0
        by_cases hrem : 0 < (count : Int) - (dbRows.map mapDbRowToQuestion).length
        · rw [if_pos hrem] at h
          cases hg : generateQuestionBatchF fuel env.rnd env.time lv sb
              (((count : Int) - (dbRows.map mapDbRowToQuestion).length).toNat)
              (hist.map (fun h0 => h0.question_signature) ++
                (dbRows.map mapDbRowToQuestion).map (fun q => q.signature)) st0 with
          | none =>
            rw [hg] at h
            exact absurd h (by simp)
          | some b =>
            rcases b with ⟨gen, m, st1⟩
            rw [hg] at h
            simp only [] at h
            injection h with h
            rw [← h]
            have hglen : gen.length =
                ((count : Int) - (dbRows.map mapDbRowToQuestion).length).toNat :=
              (generateQuestionBatchF_spec fuel env.rnd env.time lv sb _ _ st0 _ hg).1
            show (shuffleF env.rnd st1 (dbRows.map mapDbRowToQuestion ++ gen)).1.length =
              count
            rw [shuffleF_length]
            rw [List.length_map] at hglen hrem
            simp only [List.length_append, List.length_map]
            omega
        · rw [if_neg hrem] at h
          injection h with h
          rw [← h]
          show (shuffleF env.rnd st0 (dbRows.map mapDbRowToQuestion ++ [])).1.length =
            count
          rw [shuffleF_length]
          rw [List.length_map] at hrem
          simp only [List.length_append, List.length_map, List.length_nil]
          omega

/-- Demo environment: demo flag on, both stores present but never consulted. -/
def envDemoA : HybridEnv :=
  ⟨true, some [], QueryOutcome.rows [], rhoGood, tauZero⟩

/-- Second demo environment: same streams, different history and store
outcomes, for the demo-independence half of C9. -/
def envDemoB : HybridEnv :=
  ⟨true, Option.none, QueryOutcome.errField, rhoGood, tauZero⟩

/-- Concrete demo-mode session of length one for claim1_session_length. -/
theorem claim1_witness :
    (1 : Nat) ≤ 1 ∧
    ∃ res, fetchSmartSessionF 10 envDemoA Level.SMP Subject.Matematika 1 = some res ∧
      res.questions.length = 1 := by
  obtain ⟨res, hres⟩ :
      ∃ r, fetchSmartSessionF 10 envDemoA Level.SMP Subject.Matematika 1 = some r :=
    ⟨_, rfl⟩
  refine ⟨Nat.le_refl 1, res, hres, ?_⟩
  refine claim1_session_length 10 envDemoA Level.SMP Subject.Matematika 1 res
    (Nat.le_refl 1) ?_ hres
  intro rs hq
  have h2 : QueryOutcome.rows ([] : List QuestionBankRow) = QueryOutcome.rows rs := hq
  injection h2 with h2
  rw [← h2]
  simp

/-- History row used by the error-fallback witness environment. -/
def histRow1 : QuizHistoryRow :=
  ⟨"h1", "u1", "Matematika", "old-sig", true, "t"⟩

/-- Environment whose curated-store query answers with an error field. -/
def envErr : HybridEnv :=
  ⟨false, some [histRow1], QueryOutcome.errField, rhoGood, tauZero⟩

/-- C4: a curated-store query error is non-fatal: the session equals the pure
generated batch that excludes the history signatures, it has exactly count
questions, all procedurally generated (no store image), and when the mastery
flag is off no returned signature is in the user history. -/
theorem claim4_query_error (fuel : Nat) (env : HybridEnv) (lv : Level) (sb : Subject)
    (count : Nat) (hist : List QuizHistoryRow) (res : SessionResult)
    (hdemo : env.demo = false)
    (hhist : env.historyOutcome = some hist)
    (hqe : env.queryOutcome = QueryOutcome.errField)
    (h : fetchSmartSessionF fuel env lv sb count = some res) :
    fetchSmartSessionF fuel env lv sb count =
      (generateQuestionBatchF fuel env.rnd env.time lv sb count
        (hist.map (fun h0 => h0.question_signature)) st0).map toSession ∧
    res.questions.length = count ∧
    (∀ q ∈ res.questions, q.imageUrl = Option.none ∧ q.level = levelStr lv ∧
      q.subject = subjectStr sb) ∧
    (res.mastery = false →
      ∀ q ∈ res.questions,
        q.signature ∉ hist.map (fun h0 => h0.question_signature)) := by
  have heq : fetchSmartSessionF fuel env lv sb count =
      (generateQuestionBatchF fuel env.rnd env.time lv sb count
        (hist.map (fun h0 => h0.question_signature)) st0).map toSession := by
    unfold fetchSmartSessionF
    rw [if_neg (show ¬ env.demo = true by simp [hdemo]), hhist, hqe]
  rw [heq] at h
  cases hg : generateQuestionBatchF fuel env.rnd env.time lv sb count
      (hist.map (fun h0 => h0.question_signature)) st0 with
  | none =>
    rw [hg] at h
    exact absurd h (by simp)
  | some b =>
    rw [hg] at h
    rw [hg] at heq
    have h2 : some (toSession b) = some res := h
    injection h2 with h2
    obtain ⟨hlen, hprops, dqs, fills, hsplit, _, hnot, hfe, _, _⟩ :=
      generateQuestionBatchF_spec fuel env.rnd env.time lv sb count
        (hist.map (fun h0 => h0.question_signature)) st0 b hg
    rw [← h2]
    refine ⟨heq, hlen, ?_, ?_⟩
    · intro q hq
      obtain ⟨_, _, _, p4, p5, p6⟩ := hprops q hq
      exact ⟨p4, p5, p6⟩
    · intro hm q hq
      have hf0 : fills = [] := hfe hm
      rw [hf0, List.append_nil] at hsplit
      rw [show (toSession b).questions = b.1 from rfl, hsplit] at hq
      exact hnot q hq

/-- Concrete query-error fallback of length one for claim4_query_error. -/
theorem claim4_witness :
    ∃ res, fetchSmartSessionF 10 envErr Level.SMP Subject.Matematika 1 = some res ∧
      res.questions.length = 1 ∧ ∀ q ∈ res.questions, q.imageUrl = Option.none := by
  obtain ⟨res, hres⟩ :
      ∃ r, fetchSmartSessionF 10 envErr Level.SMP Subject.Matematika 1 = some r :=
    ⟨_, rfl⟩
  obtain ⟨_, hlen, hprops, _⟩ :=
    claim4_query_error 10 envErr Level.SMP Subject.Matematika 1 [histRow1] res rfl rfl
      rfl hres
  exact ⟨res, hres, hlen, fun q hq => (hprops q hq).1⟩

/-- C9: in demo mode fetchSmartSession consults neither the history store nor
the curated store: it equals the generated batch with an empty exclusion set,
and two demo environments sharing the same streams yield the same session
whatever their stores hold. -/
theorem claim9_demo_mode (fuel : Nat) (env env2 : HybridEnv) (lv : Level)
    (sb : Subject) (count : Nat)
    (hd1 : env.demo = true) (hd2 : env2.demo = true)
    (hrnd : env.rnd = env2.rnd) (htime : env.time = env2.time) :
    fetchSmartSessionF fuel env lv sb count =
      (generateQuestionBatchF fuel env.rnd env.time lv sb count [] st0).map toSession ∧
    fetchSmartSessionF fuel env lv sb count =
      fetchSmartSessionF fuel env2 lv sb count := by
  have e1 : fetchSmartSessionF fuel env lv sb count =
      (generateQuestionBatchF fuel env.rnd env.time lv sb count [] st0).map toSession := by
    unfold fetchSmartSessionF
    rw [if_pos hd1]
  have e2 : fetchSmartSessionF fuel env2 lv sb count =
      (generateQuestionBatchF fuel env2.rnd env2.time lv sb count [] st0).map toSession := by
    unfold fetchSmartSessionF
    rw [if_pos hd2]
  exact ⟨e1, by rw [e1, e2, hrnd, htime]⟩

/-- Demo environments differing only in their stores produce one session. -/
theorem claim9_witness :
    fetchSmartSessionF 10 envDemoA Level.SMP Subject.Matematika 1 =
      (generateQuestionBatchF 10 envDemoA.rnd envDemoA.time Level.SMP
        Subject.Matematika 1 [] st0).map toSession ∧
    fetchSmartSessionF 10 envDemoA Level.SMP Subject.Matematika 1 =
      fetchSmartSessionF 10 envDemoB Level.SMP Subject.Matematika 1 :=
  claim9_demo_mode 10 envDemoA envDemoB Level.SMP Subject.Matematika 1 rfl rfl rfl rfl

/-- C5: the dedup phase of generateQuestionBatch spends at most count * 50
generator calls; the mastery flag is true exactly when the dedup phase fell
short of count, in which case the batch is the dedup output force-filled to
exactly count items with dedup-bypass suffixed signatures. -/
theorem claim5_retry_budget (fuel : Nat) (ρ τ : Nat → Nat) (lv : Level) (sb : Subject)
    (count : Nat) (used : List String) (st : RSt)
    (dres : List GeneratedQuestion × List String × Nat × RSt)
    (res : List GeneratedQuestion × Bool × RSt)
    (hd : dedupLoop fuel ρ τ lv sb (count * 50) count [] used.dedup st = some dres)
    (hb : generateQuestionBatchF fuel ρ τ lv sb count used st = some res) :
    dres.2.2.1 ≤ count * 50 ∧
    (res.2.1 = true ↔ dres.1.length < count) ∧
    res.1.length = count ∧
    (res.2.1 = true →
      ∃ fills : List GeneratedQuestion,
        res.1 = dres.1 ++ fills ∧
        fills.length = count - dres.1.length ∧
        ∀ f ∈ fills, ∃ (q : GeneratedQuestion) (tv : Nat),
          f = { q with signature := q.signature ++ "-dup-" ++ intRepr tv }) := by
  obtain ⟨_, _, _, _, _, hlen5, hcalls, _⟩ :=
    dedupLoop_spec fuel ρ τ lv sb (fun _ => True) (fun _ _ _ _ => trivial)
      (count * 50) count [] used.dedup st dres hd (by simp)
  rcases dres with ⟨dqs, sigs, calls, st1⟩
  have hlen5' : dqs.length ≤ count := hlen5
  have hcalls' : calls ≤ count * 50 := hcalls
  unfold generateQuestionBatchF at hb
  rw [hd] at hb
  simp only [] at hb
  by_cases hlt : dqs.length < count
  · rw [if_pos hlt] at hb
    cases hf : fillLoop fuel ρ τ lv sb (count - dqs.length) st1 with
    | none =>
      rw [hf] at hb
      exact absurd hb (by simp)
    | some fres =>
      rcases fres with ⟨fills, st2⟩
      rw [hf] at hb
      simp only [] at hb
      injection hb with hb
      rw [← hb]
      obtain ⟨flen, fall⟩ := fillLoop_spec fuel ρ τ lv sb (fun _ => True)
        (fun _ _ _ _ => trivial) (count - dqs.length) st1 _ hf
      have flen' : fills.length = count - dqs.length := flen
      refine ⟨hcalls', ⟨fun _ => hlt, fun _ => rfl⟩, ?_, ?_⟩
      · show (dqs ++ fills).length = count
        simp only [List.length_append, flen']
        omega
      · intro _
        refine ⟨fills, rfl, flen', ?_⟩
        intro f hf0
        obtain ⟨q0, tv, _, he⟩ := fall f hf0
        exact ⟨q0, tv, he⟩
  · rw [if_neg hlt] at hb
    injection hb with hb
    rw [← hb]
    refine ⟨hcalls', ⟨fun h0 => absurd h0 (by simp), fun h1 => absurd h1 hlt⟩, ?_, ?_⟩
    · show dqs.length = count
      omega
    · intro h0
      exact absurd h0 (by simp)

/-- Concrete budget run of claim5_retry_budget: one question, empty exclusion
set, budget fifty, one call spent. -/
theorem claim5_witness :
    ∃ (dres : List GeneratedQuestion × List String × Nat × RSt)
      (res : List GeneratedQuestion × Bool × RSt),
      dedupLoop 10 rhoGood tauZero Level.SMP Subject.Matematika (1 * 50) 1 []
        (List.dedup ([] : List String)) st0 = some dres ∧
      generateQuestionBatchF 10 rhoGood tauZero Level.SMP Subject.Matematika 1 [] st0 =
        some res ∧
      dres.2.2.1 ≤ 1 * 50 ∧ res.1.length = 1 := by
  obtain ⟨dres, hd⟩ :
      ∃ d, dedupLoop 10 rhoGood tauZero Level.SMP Subject.Matematika (1 * 50) 1 []
        (List.dedup ([] : List String)) st0 = some d :=
    ⟨_, rfl⟩
  obtain ⟨res, hb⟩ :
      ∃ r, generateQuestionBatchF 10 rhoGood tauZero Level.SMP Subject.Matematika 1 []
        st0 = some r :=
    ⟨_, rfl⟩
  obtain ⟨h1, _, h3, _⟩ :=
    claim5_retry_budget 10 rhoGood tauZero Level.SMP Subject.Matematika 1 [] st0 dres
      res hd hb
  exact ⟨dres, res, hd, hb, h1, h3⟩

/-- C8: mapDbRowToQuestion is total on every row: id and signature both equal
the store row id, options pass through unchanged, and correctIndex is the
first option position whose trimmed case-insensitive text equals the answer
text when one exists (in particular in range), falling back to 0 when no
option matches. -/
theorem claim8_row_mapping (row : QuestionBankRow) :
    (mapDbRowToQuestion row).id = row.id ∧
    (mapDbRowToQuestion row).signature = row.id ∧
    (mapDbRowToQuestion row).options = row.options ∧
    ((∀ opt ∈ row.options, normAns opt ≠ normAns row.answer) →
      (mapDbRowToQuestion row).correctIndex = 0) ∧
    ((∃ opt ∈ row.options, normAns opt = normAns row.answer) →
      0 ≤ (mapDbRowToQuestion row).correctIndex ∧
      ((mapDbRowToQuestion row).correctIndex).toNat < row.options.length ∧
      normAns (row.options.getD ((mapDbRowToQuestion row).correctIndex).toNat ("")) =
        normAns row.answer ∧
      ∀ j : Nat, (j : Int) < (mapDbRowToQuestion row).correctIndex →
        normAns (row.options.getD j ("")) ≠ normAns row.answer) := by
  refine ⟨rfl, rfl, rfl, ?_, ?_⟩
  · intro hno
    have hneg : jsFindIndex (fun opt => normAns opt == normAns row.answer) row.options =
        -1 := by
      apply jsFindIndex_neg
      intro x hx
      exact beq_eq_false_iff_ne.mpr (hno x hx)
    show (if 0 ≤ jsFindIndex (fun opt => normAns opt == normAns row.answer) row.options
        then jsFindIndex (fun opt => normAns opt == normAns row.answer) row.options
        else 0) = 0
    rw [hneg]
    decide
  · intro hex
    have hex2 : ∃ x ∈ row.options,
        (fun opt => normAns opt == normAns row.answer) x = true := by
      obtain ⟨x, hx, he⟩ := hex
      exact ⟨x, hx, by simp [he]⟩
    obtain ⟨h0, hlt, hp⟩ :=
      jsFindIndex_spec (fun opt => normAns opt == normAns row.answer) ("") row.options
        hex2
    have hci : (mapDbRowToQuestion row).correctIndex =
        jsFindIndex (fun opt => normAns opt == normAns row.answer) row.options := by
      show (if 0 ≤ jsFindIndex (fun opt => normAns opt == normAns row.answer) row.options
          then jsFindIndex (fun opt => normAns opt == normAns row.answer) row.options
          else 0) =
        jsFindIndex (fun opt => normAns opt == normAns row.answer) row.options
      rw [if_pos h0]
    refine ⟨?_, ?_, ?_, ?_⟩
    · rw [hci]
      exact h0
    · rw [hci]
      exact hlt
    · rw [hci]
      simpa using hp
    · intro j hj
      rw [hci] at hj
      have hfirst :=
        jsFindIndex_first (fun opt => normAns opt == normAns row.answer) ("")
          row.options j hj
      simpa using hfirst

/-- Curated row whose answer text matches none of its options. -/
def rowJakarta : QuestionBankRow :=
  ⟨"qb-77", "SMP", "IPS", "Ibu kota Indonesia?", ["Surabaya", "Bandung", "Medan"],
    "Jakarta", "", Option.none, "2024"⟩

/-- Concrete no-match row for claim8_row_mapping: correctIndex defaults to 0
and the store id is recoverable from id and signature. -/
theorem claim8_witness :
    (mapDbRowToQuestion rowJakarta).correctIndex = 0 ∧
    (mapDbRowToQuestion rowJakarta).id = "qb-77" ∧
    (mapDbRowToQuestion rowJakarta).signature = "qb-77" := by
  obtain ⟨hid, hsig, _, hno, _⟩ := claim8_row_mapping rowJakarta
  exact ⟨hno (by decide), hid, hsig⟩

/-- C10: generateQuestionBatch never mutates the caller's usedSignatures set:
it allocates a local copy and only extends that, so the set behind the
caller's reference is identical before and after the call. -/
theorem claim10_no_mutation (fuel : Nat) (ρ τ : Nat → Nat) (lv : Level) (sb : Subject)
    (count usedRef : Nat) (h : SetHeap) (st : RSt)
    (res : List GeneratedQuestion × Bool × SetHeap × RSt)
    (href : usedRef < h.next)
    (hb : generateQuestionBatchH fuel ρ τ lv sb count usedRef h st = some res) :
    res.2.2.1.store usedRef = h.store usedRef := by
  unfold generateQuestionBatchH at hb
  cases hd : dedupLoopH fuel ρ τ lv sb (count * 50) count []
      (heapAlloc h (h.store usedRef)).1 (heapAlloc h (h.store usedRef)).2 st with
  | none =>
    rw [hd] at hb
    exact absurd hb (by simp)
  | some dres =>
    rcases dres with ⟨qs, h1, st1⟩
    rw [hd] at hb
    simp only [] at hb
    have hne : usedRef ≠ (heapAlloc h (h.store usedRef)).1 := by
      show usedRef ≠ h.next
      omega
    have hframe : h1.store usedRef = (heapAlloc h (h.store usedRef)).2.store usedRef :=
      dedupLoopH_frame fuel ρ τ lv sb (count * 50) count []
        (heapAlloc h (h.store usedRef)).1 (heapAlloc h (h.store usedRef)).2 st
        (qs, h1, st1) hd usedRef hne
    have halloc : (heapAlloc h (h.store usedRef)).2.store usedRef = h.store usedRef := by
      show (if usedRef = h.next then (h.store usedRef).dedup else h.store usedRef) =
        h.store usedRef
      rw [if_neg (by omega)]
    by_cases hlt : qs.length < count
    · rw [if_pos hlt] at hb
      cases hf : fillLoop fuel ρ τ lv sb (count - qs.length) st1 with
      | none =>
        rw [hf] at hb
        exact absurd hb (by simp)
      | some fres =>
        rcases fres with ⟨fills, st2⟩
        rw [hf] at hb
        simp only [] at hb
        injection hb with hb
        rw [← hb]
        show h1.store usedRef = h.store usedRef
        rw [hframe, halloc]
    · rw [if_neg hlt] at hb
      injection hb with hb
      rw [← hb]
      show h1.store usedRef = h.store usedRef
      rw [hframe, halloc]

/-- Heap with one allocated set for the frame witness. -/
def heap0 : SetHeap := ⟨fun _ => [], 1⟩

/-- Concrete batch over the heap: the caller's set at reference 0 is
untouched. -/
theorem claim10_witness :
    (0 : Nat) < heap0.next ∧
    ∃ res, generateQuestionBatchH 10 rhoGood tauZero Level.SMP Subject.Matematika 1 0
        heap0 st0 = some res ∧ res.2.2.1.store 0 = heap0.store 0 := by
  obtain ⟨res, hres⟩ :
      ∃ r, generateQuestionBatchH 10 rhoGood tauZero Level.SMP Subject.Matematika 1 0
        heap0 st0 = some r :=
    ⟨_, rfl⟩
  exact ⟨by decide, res, hres,
    claim10_no_mutation 10 rhoGood tauZero Level.SMP Subject.Matematika 1 0 heap0 st0
      res (by decide) hres⟩

end QOlymp
